import Mathlib

set_option maxRecDepth 4000

/-!
Verification of the hiring-agent résumé extraction and scoring pipeline.

Python strings are modelled as lists of characters (`Str`); the string
primitives the sources use (`str.strip`, `str.find`, `str.rfind`,
`str.split`, `str.replace`, `in`, `str.lower`) are defined below with
Python's semantics.  All recursions are structural so that concrete
inputs evaluate by `decide` / `rfl`.
-/

/-- Python strings, modelled as lists of characters. -/
abbrev Str := List Char

/-- Builds a `Str` from a Lean string literal. -/
def strL (s : String) : Str := s.toList

/-- Characters removed by Python `str.strip()` with no argument. -/
def isPySpace (c : Char) : Bool :=
  c = ' ' || c = '\t' || c = '\n' || c = '\r' || c = '\x0b' || c = '\x0c'

/-- Left part of Python `str.strip()`. -/
def stripLeft (s : Str) : Str := s.dropWhile isPySpace

/-- Right part of Python `str.strip()`. -/
def stripRight (s : Str) : Str := (s.reverse.dropWhile isPySpace).reverse

/-- Python `s.strip()`. -/
def pyStrip (s : Str) : Str := stripRight (stripLeft s)

/-- Helper for `pyFind`: scans for the leftmost match of `needle`. -/
def pyFindAux (needle : Str) : Str → Nat → Option Nat
  | [], i => if needle.isEmpty then some i else none
  | c :: rest, i =>
    if needle.isPrefixOf (c :: rest) then some i else pyFindAux needle rest (i + 1)

/-- Python `hay.find(needle)`, with `None` in place of `-1`. -/
def pyFind (needle hay : Str) : Option Nat := pyFindAux needle hay 0

/-- Helper for `pyRFind`: scans keeping the rightmost match of `needle`. -/
def pyRFindAux (needle : Str) : Str → Nat → Option Nat → Option Nat
  | [], i, best => if needle.isEmpty then some i else best
  | c :: rest, i, best =>
    pyRFindAux needle rest (i + 1)
      (if needle.isPrefixOf (c :: rest) then some i else best)

/-- Python `hay.rfind(needle)`, with `None` in place of `-1`. -/
def pyRFind (needle hay : Str) : Option Nat := pyRFindAux needle hay 0 none

/-- Python `needle in hay` for strings. -/
def pyContains (hay needle : Str) : Bool := (pyFind needle hay).isSome

/-- Helper for `pySplit`; the `Nat` argument counts separator characters
still to be skipped after a match. -/
def pySplitAux (sep : Str) : Str → Nat → Str → List Str
  | [], _, acc => [acc.reverse]
  | _ :: rest, Nat.succ k, acc => pySplitAux sep rest k acc
  | c :: rest, 0, acc =>
    if sep.isPrefixOf (c :: rest) then
      acc.reverse :: pySplitAux sep rest (sep.length - 1) []
    else
      pySplitAux sep rest 0 (c :: acc)

/-- Python `s.split(sep)` for a non-empty separator (Python raises on an
empty separator; the sources never pass one). -/
def pySplit (sep s : Str) : List Str :=
  if sep.isEmpty then [s] else pySplitAux sep s 0 []

/-- Helper for `pySplitWS`. -/
def pySplitWSAux : Str → Str → List Str
  | [], acc => if acc.isEmpty then [] else [acc.reverse]
  | c :: rest, acc =>
    if isPySpace c then
      if acc.isEmpty then pySplitWSAux rest []
      else acc.reverse :: pySplitWSAux rest []
    else pySplitWSAux rest (c :: acc)

/-- Python `s.split()` with no argument: splits on whitespace runs,
dropping empty fragments. -/
def pySplitWS (s : Str) : List Str := pySplitWSAux s []

/-- Helper for `pyReplace`; the `Nat` argument counts characters of a
matched occurrence still to be dropped. -/
def pyReplaceAux (old new : Str) : Str → Nat → Str
  | [], _ => []
  | _ :: rest, Nat.succ k => pyReplaceAux old new rest k
  | c :: rest, 0 =>
    if old.isPrefixOf (c :: rest) then new ++ pyReplaceAux old new rest (old.length - 1)
    else c :: pyReplaceAux old new rest 0

/-- Python `s.replace(old, new)` for a non-empty `old` (the sources only
replace the literal `"onwards"`). -/
def pyReplace (s old new : Str) : Str :=
  if old.isEmpty then s else pyReplaceAux old new s 0

/-- Python `s.lower()` (the sources only lower-case ASCII evidence text). -/
def pyLower (s : Str) : Str := s.map Char.toLower

/-!
## `llm_utils.extract_json_from_response` and the inline clean-up of
`PDFHandler._call_llm_for_section`

The spec's `repair_json_text` corresponds to these two code sites.
-/

/-- Source: llm_utils.py lines 24-29 (also pdf.py lines 157-164): strip
outer whitespace is done by the caller; this stage removes the first
`<think>` ... `</think>` region when both delimiters occur. -/
def strip_think_block (t : Str) : Str :=
  if pyContains t (strL "<think>") then
    match pyFind (strL "<think>") t, pyFind (strL "</think>") t with
    | some ts, some te => t.take ts ++ t.drop (te + 8)
    | _, _ => t
  else t

/-- Source: llm_utils.py lines 31-36: drop a leading ```` ```json ```` and a
trailing ```` ``` ````.  Note this variant does not strip a bare leading
```` ``` ````. -/
def strip_fences_llm (t : Str) : Str :=
  let t1 := if (strL "```json").isPrefixOf t then t.drop 7 else t
  if (strL "```").isSuffixOf t1 then t1.take (t1.length - 3) else t1

/-- Source: pdf.py lines 166-172: like `strip_fences_llm` but also drops a
bare leading ```` ``` ````. -/
def strip_fences_pdf (t : Str) : Str :=
  let t1 :=
    if (strL "```json").isPrefixOf t then t.drop 7
    else if (strL "```").isPrefixOf t then t.drop 3
    else t
  if (strL "```").isSuffixOf t1 then t1.take (t1.length - 3) else t1

/-- Source: pdf.py lines 177-182: truncate to the region from the first
`{` to the last `}` when both are found. -/
def truncate_to_braces (t : Str) : Str :=
  match pyFind (strL "\x7b") t, pyRFind (strL "\x7d") t with
  | some a, some b => (t.take (b + 1)).drop a
  | _, _ => t

/-- Source: `llm_utils.extract_json_from_response` (llm_utils.py lines
13-37).  Strips outer whitespace, removes a `<think>` block, and removes
markdown code-fence markers.  It performs no brace truncation. -/
def extract_json_from_response (response_text : Str) : Str :=
  let t := pyStrip response_text
  let t :=
    if pyContains t (strL "<think>") then
      match pyFind (strL "<think>") t, pyFind (strL "</think>") t with
      | some ts, some te => t.take ts ++ t.drop (te + 8)
      | _, _ => t
    else t
  let t := if (strL "```json").isPrefixOf t then t.drop 7 else t
  let t := if (strL "```").isSuffixOf t then t.take (t.length - 3) else t
  t

/-- Source: the response clean-up inlined in
`PDFHandler._call_llm_for_section` (pdf.py lines 157-182), applied before
`json.loads`: strip, remove a `<think>` block, remove code fences, strip
again, then truncate to the first `{` ... last `}` region. -/
def clean_llm_section_response (response_text : Str) : Str :=
  let t := pyStrip response_text
  let t :=
    if pyContains t (strL "<think>") then
      match pyFind (strL "<think>") t, pyFind (strL "</think>") t with
      | some ts, some te => t.take ts ++ t.drop (te + 8)
      | _, _ => t
    else t
  let t :=
    if (strL "```json").isPrefixOf t then t.drop 7
    else if (strL "```").isPrefixOf t then t.drop 3
    else t
  let t := if (strL "```").isSuffixOf t then t.take (t.length - 3) else t
  let t := pyStrip t
  match pyFind (strL "\x7b") t, pyRFind (strL "\x7d") t with
  | some a, some b => (t.take (b + 1)).drop a
  | _, _ => t

/-!
## transform.py: date ranges and network inference (claims C8, C9)
-/

/-- The month-name list tested by `parse_date_range` (transform.py). -/
def month_names : List Str :=
  [strL "Jan", strL "Feb", strL "Mar", strL "Apr", strL "May", strL "Jun",
   strL "Jul", strL "Aug", strL "Sep", strL "Oct", strL "Nov", strL "Dec"]

/-- Association-list lookup with a default, modelling `dict.get(k, d)`. -/
def lookupD (l : List (Str × Str)) (k d : Str) : Str :=
  match l.find? (fun p => p.1 == k) with
  | some p => p.2
  | none => d

/-- The identity month map of `parse_date_range` (transform.py lines
449-462); `month_map.get(m, m)` below. -/
def month_map : List (Str × Str) :=
  [(strL "Jan", strL "Jan"), (strL "Feb", strL "Feb"), (strL "Mar", strL "Mar"),
   (strL "Apr", strL "Apr"), (strL "May", strL "May"), (strL "Jun", strL "Jun"),
   (strL "Jul", strL "Jul"), (strL "Aug", strL "Aug"), (strL "Sep", strL "Sep"),
   (strL "Oct", strL "Oct"), (strL "Nov", strL "Nov"), (strL "Dec", strL "Dec")]

/-- The `"2020-2021"`-shaped branch of `parse_date_range` (transform.py
lines 477-483), reached by fall-through when the month branch does not
return. -/
def parse_year_range (date_range : Str) : Option Str × Option Str :=
  if pyContains date_range (strL "-") && (pySplit (strL "-") date_range).length == 2 then
    let parts := pySplit (strL "-") date_range
    (some ((parts.headD []) ++ strL "-01"), some ((parts.getLastD []) ++ strL "-12"))
  else (none, none)

/-- Source: `transform.parse_date_range` (transform.py lines 412-483). -/
def parse_date_range (date_range : Str) : Option Str × Option Str :=
  if date_range.isEmpty then (none, none)
  else if pyContains date_range (strL "onwards") then
    let start_part := pyStrip (pyReplace date_range (strL "onwards") [])
    if start_part.isEmpty then (none, some (strL "Present"))
    else (some start_part, some (strL "Present"))
  else if pyContains date_range (strL " ")
      && month_names.any (fun m => pyContains date_range m) then
    let parts := pySplit (strL " ") date_range
    if parts.length ≥ 2 then
      let year := parts.getLastD []
      let p0 := parts.headD []
      if pyContains p0 (strL "-") && (pySplit (strL "-") p0).length == 2 then
        let mp := pySplit (strL "-") p0
        let start_month := mp.headD []
        let end_month := mp.getLastD []
        (some (lookupD month_map start_month start_month ++ strL " " ++ year),
         some (lookupD month_map end_month end_month ++ strL " " ++ year))
      else
        (some (lookupD month_map p0 p0 ++ strL " " ++ year), none)
    else parse_year_range date_range
  else parse_year_range date_range

/-- Source: `transform.extract_domain_from_url` (transform.py lines
98-107).  The `try` body cannot raise: both indexings are guarded. -/
def extract_domain_from_url (url : Str) : Str :=
  let u := if pyContains url (strL "://") then (pySplit (strL "://") url).getD 1 [] else url
  let domain := (pySplit (strL "/") u).headD []
  if (strL "www.").isPrefixOf domain then domain.drop 4 else domain

/-- Source: `transform.get_network_name` (transform.py lines 110-122). -/
def get_network_name (domain : Str) : Str :=
  lookupD
    [(strL "github.com", strL "GitHub"),
     (strL "linkedin.com", strL "LinkedIn"),
     (strL "leetcode.com", strL "LeetCode"),
     (strL "stackoverflow.com", strL "Stack Overflow"),
     (strL "hackerrank.com", strL "HackerRank"),
     (strL "behance.net", strL "Behance"),
     (strL "dev.to", strL "DEV Community"),
     (strL "twitter.com", strL "X"),
     (strL "x.com", strL "X")]
    domain []

/-- Source: `transform.extract_username_from_url` (transform.py lines
154-172).  An `IndexError` on the per-network segment lookup is caught by
the source's `except` and turned into `""`; `List.getD` with default `[]`
models exactly that. -/
def extract_username_from_url (url domain : Str) : Str :=
  let path := if pyContains url domain then (pySplit domain url).getD 1 [] else []
  if path.isEmpty then []
  else
    let path2 := path.dropWhile (fun c => c = '/')
    let parts := (pySplit (strL "/") path2).filter (fun p => !p.isEmpty)
    if parts.isEmpty then []
    else if domain == strL "linkedin.com" then parts.getD 1 []
    else if domain == strL "stackoverflow.com" then parts.getD 2 []
    else parts.headD []

/-- The network/username inference that `transform.transform_basics`
(transform.py lines 139-147) performs for a profile that has a `url` and
no `network`: domain extraction, the fixed domain table, and the
per-domain username rule. -/
def infer_network_from_url (url : Str) : Str × Str :=
  let domain := extract_domain_from_url url
  (get_network_name domain, extract_username_from_url url domain)

/-!
## Claim theorems for the normalization utilities (C6, C7, C8, C9)
-/

/-- C6 counterexample: the shared repair utility
`extract_json_from_response` does not truncate to the first `{` ... last
`}` region: on `"a{b}c"` it returns the input unchanged instead of
`"{b}"`. -/
theorem extract_json_from_response_no_truncation :
    extract_json_from_response (strL "a\x7bb\x7dc") = strL "a\x7bb\x7dc"
      ∧ strL "a\x7bb\x7dc" ≠ strL "\x7bb\x7d" := by
  constructor
  · rfl
  · decide

/-- C6 amended: `extract_json_from_response` strips outer whitespace, the
`<think>` reasoning block and the code-fence markers, and returns
best-effort without raising, but performs no brace truncation; the brace
truncation (plus a second strip and the bare-fence case) is performed
only by the inline clean-up of `PDFHandler._call_llm_for_section`. -/
theorem repair_json_text_stage_decomposition (s : Str) :
    extract_json_from_response s
      = strip_fences_llm (strip_think_block (pyStrip s))
    ∧ clean_llm_section_response s
      = truncate_to_braces (pyStrip (strip_fences_pdf (strip_think_block (pyStrip s)))) :=
  ⟨rfl, rfl⟩

/-- C6 amended witness: the decomposition evaluated at a concrete fenced
response. -/
theorem repair_json_text_stage_decomposition_witness :
    extract_json_from_response (strL "```json\x7ba\x7d```")
      = strip_fences_llm (strip_think_block (pyStrip (strL "```json\x7ba\x7d```"))) :=
  (repair_json_text_stage_decomposition (strL "```json\x7ba\x7d```")).1

/-- C7 counterexample: `extract_json_from_response` is not idempotent.
On `"```json\n{}\n```"` one application yields `"\n{}\n"` and a second
application strips the now-exposed whitespace, yielding `"{}"`. -/
theorem extract_json_from_response_not_idempotent :
    extract_json_from_response
        (extract_json_from_response (strL "```json\n\x7b\x7d\n```"))
      ≠ extract_json_from_response (strL "```json\n\x7b\x7d\n```") := by
  decide

/-- C8: the three documented evaluations of `parse_date_range`. -/
theorem parse_date_range_documented_examples :
    parse_date_range (strL "Mar-May 2020") = (some (strL "Mar 2020"), some (strL "May 2020"))
    ∧ parse_date_range (strL "2007-2019") = (some (strL "2007-01"), some (strL "2019-12"))
    ∧ (parse_date_range (strL "Feb onwards 2021")).2 = some (strL "Present") := by
  refine ⟨?_, ?_, ?_⟩ <;> rfl

/-- C9: network inference from a profile URL: the registrable domain is
looked up in the fixed table and the username comes from the per-domain
path segment (second segment for LinkedIn, first by default). -/
theorem infer_network_from_url_documented_examples :
    infer_network_from_url (strL "https://github.com/octocat")
      = (strL "GitHub", strL "octocat")
    ∧ infer_network_from_url (strL "https://linkedin.com/in/jdoe")
      = (strL "LinkedIn", strL "jdoe") := by
  constructor <;> rfl

/-!
## Idempotence analysis of the repair utility (C7)
-/

/-- A located match implies the needle occurs as an infix. -/
theorem pyFindAux_isSome_infix (needle : Str) :
    ∀ (hay : Str) (i : Nat), (pyFindAux needle hay i).isSome → needle <:+: hay := by
  intro hay
  induction hay with
  | nil =>
    intro i h
    simp only [pyFindAux] at h
    by_cases he : needle.isEmpty
    · simp [List.isEmpty_iff.mp he]
    · simp [he] at h
  | cons c rest ih =>
    intro i h
    simp only [pyFindAux] at h
    by_cases hp : needle.isPrefixOf (c :: rest)
    · exact (List.isPrefixOf_iff_prefix.mp hp).isInfix
    · simp only [hp, if_false] at h
      exact List.infix_cons (ih (i + 1) h)

/-- An infix occurrence guarantees that the scan finds a match. -/
theorem pyFindAux_isSome_of_infix (needle : Str) :
    ∀ (hay : Str) (i : Nat), needle <:+: hay → (pyFindAux needle hay i).isSome := by
  intro hay
  induction hay with
  | nil =>
    intro i h
    have : needle = [] := by simpa using h
    simp [pyFindAux, this]
  | cons c rest ih =>
    intro i h
    simp only [pyFindAux]
    by_cases hp : needle.isPrefixOf (c :: rest)
    · simp [hp]
    · rcases List.infix_cons_iff.mp h with h1 | h2
      · exact absurd (List.isPrefixOf_iff_prefix.mpr h1) hp
      · simp only [hp, if_false]
        exact ih (i + 1) h2

/-- Python's `in` on strings agrees with the infix relation. -/
theorem pyContains_infix_iff (hay needle : Str) :
    pyContains hay needle = true ↔ needle <:+: hay := by
  constructor
  · exact fun h => pyFindAux_isSome_infix needle hay 0 h
  · exact fun h => pyFindAux_isSome_of_infix needle hay 0 h

/-- Right-stripping yields a prefix of the input. -/
theorem stripRight_prefix_self (l : Str) : stripRight l <+: l := by
  have h := List.dropWhile_suffix (l := l.reverse) isPySpace
  have h2 : (l.reverse.dropWhile isPySpace).reverse <+: l := by
    rw [← List.reverse_suffix, List.reverse_reverse]
    exact h
  exact h2

/-- Stripping yields an infix of the input. -/
theorem pyStrip_infix_self (s : Str) : pyStrip s <:+: s :=
  (stripRight_prefix_self (stripLeft s)).isInfix.trans
    (List.dropWhile_suffix (l := s) isPySpace).isInfix

/-- If a list is already fully left-stripped, so is each of its prefixes. -/
theorem dropWhile_eq_self_of_prefix {p : Char → Bool} {t m : Str}
    (hpre : t <+: m) (hm : m.dropWhile p = m) : t.dropWhile p = t := by
  cases t with
  | nil => simp
  | cons a t' =>
    obtain ⟨r, hr⟩ := hpre
    subst hr
    by_cases hpa : p a
    · exfalso
      rw [List.cons_append, List.dropWhile_cons, if_pos hpa] at hm
      have hlen := congrArg List.length hm
      have hle : (List.dropWhile p (t' ++ r)).length ≤ (t' ++ r).length :=
        (List.dropWhile_suffix (l := t' ++ r) p).sublist.length_le
      simp at hlen hle
      omega
    · simp [List.cons_append, List.dropWhile_cons, hpa]

/-- Right-stripping is idempotent. -/
theorem stripRight_idem (l : Str) : stripRight (stripRight l) = stripRight l := by
  simp [stripRight, List.reverse_reverse, List.dropWhile_idempotent]

/-- Python's `str.strip()` is idempotent. -/
theorem pyStrip_idem (s : Str) : pyStrip (pyStrip s) = pyStrip s := by
  unfold pyStrip
  have h1 : stripLeft (stripRight (stripLeft s)) = stripRight (stripLeft s) :=
    dropWhile_eq_self_of_prefix (stripRight_prefix_self (stripLeft s))
      (List.dropWhile_idempotent (p := isPySpace) (l := s))
  rw [h1, stripRight_idem]

/-- On an input with no reasoning delimiter and no code fence, the repair
utility reduces to Python's `str.strip()`. -/
theorem extract_json_eq_pyStrip (s : Str)
    (h1 : ¬ strL "<think>" <:+: s) (h2 : ¬ strL "```" <:+: s) :
    extract_json_from_response s = pyStrip s := by
  have hs := pyStrip_infix_self s
  have hThink : pyContains (pyStrip s) (strL "<think>") = false := by
    cases hb : pyContains (pyStrip s) (strL "<think>") with
    | false => rfl
    | true => exact absurd (((pyContains_infix_iff _ _).mp hb).trans hs) h1
  have hPre : (strL "```json").isPrefixOf (pyStrip s) = false := by
    cases hb : (strL "```json").isPrefixOf (pyStrip s) with
    | false => rfl
    | true =>
      have hp' : strL "```json" <+: pyStrip s := List.isPrefixOf_iff_prefix.mp hb
      have h3 : strL "```" <+: strL "```json" := by decide
      exact absurd ((h3.trans hp').isInfix.trans hs) h2
  have hSuf : (strL "```").isSuffixOf (pyStrip s) = false := by
    cases hb : (strL "```").isSuffixOf (pyStrip s) with
    | false => rfl
    | true =>
      have hp' : strL "```" <:+ pyStrip s := List.isSuffixOf_iff_suffix.mp hb
      exact absurd (hp'.isInfix.trans hs) h2
  simp [extract_json_from_response, hThink, hPre, hSuf]

/-- C7 amended: `extract_json_from_response` is idempotent on inputs that
contain no reasoning delimiter and no code-fence marker; in general a
second application can strip further (whitespace exposed by fence
removal, or a nested fence), as the counterexample shows. -/
theorem repair_json_idempotent_no_markers (s : Str)
    (h1 : pyContains s (strL "<think>") = false)
    (h2 : pyContains s (strL "```") = false) :
    extract_json_from_response (extract_json_from_response s)
      = extract_json_from_response s := by
  have h1' : ¬ strL "<think>" <:+: s := fun h => by
    rw [(pyContains_infix_iff _ _).mpr h] at h1
    exact Bool.noConfusion h1
  have h2' : ¬ strL "```" <:+: s := fun h => by
    rw [(pyContains_infix_iff _ _).mpr h] at h2
    exact Bool.noConfusion h2
  have hstep : extract_json_from_response s = pyStrip s :=
    extract_json_eq_pyStrip s h1' h2'
  have h1s : ¬ strL "<think>" <:+: pyStrip s :=
    fun h => h1' (h.trans (pyStrip_infix_self s))
  have h2s : ¬ strL "```" <:+: pyStrip s :=
    fun h => h2' (h.trans (pyStrip_infix_self s))
  rw [hstep, extract_json_eq_pyStrip (pyStrip s) h1s h2s, pyStrip_idem]

/-- C7 amended witness: idempotence at a concrete marker-free input. -/
theorem repair_json_idempotent_no_markers_witness :
    pyContains (strL "hello world") (strL "<think>") = false
    ∧ pyContains (strL "hello world") (strL "```") = false
    ∧ extract_json_from_response (extract_json_from_response (strL "hello world"))
        = extract_json_from_response (strL "hello world") :=
  ⟨by decide, by decide,
   repair_json_idempotent_no_markers (strL "hello world") (by decide) (by decide)⟩

/-!
## github.py: repository enrichment and top-5 selection (C3, C4, C10)

The network boundary (`requests`, `ollama.chat`) is external; the model
below covers the pure transformation applied to a successfully fetched
repository listing (`fetch_all_github_repos`, 200-status path) and the
post-call processing of `generate_projects_json`, with the selection
call's outcome passed in explicitly.
-/

/-- One entry of the contributors API response for a repository. -/
structure Contributor where
  login : Str
  contributions : Nat
deriving DecidableEq

/-- One entry of the repository-list API response, restricted to the
fields `fetch_all_github_repos` reads.  `contributors_response` is the
contributors listing for this repository (`none` models a non-200
contributors call, which the source turns into a count of 1). -/
structure RepoData where
  name : Str
  description : Option Str
  html_url : Str
  homepage : Option Str
  language : Option Str
  stargazers_count : Nat
  forks_count : Nat
  created_at : Str
  updated_at : Str
  topics : List Str
  open_issues_count : Nat
  size : Nat
  fork : Bool
  archived : Bool
  default_branch : Str
  contributors_response : Option (List Contributor)
deriving DecidableEq

/-- The `github_details` sub-dictionary built by `fetch_all_github_repos`
(github.py lines 224-238). -/
structure GithubDetails where
  stars : Nat
  forks : Nat
  language : Option Str
  description : Option Str
  created_at : Str
  updated_at : Str
  topics : List Str
  open_issues : Nat
  size : Nat
  fork : Bool
  archived : Bool
  default_branch : Str
  contributors : Nat
deriving DecidableEq

/-- The project dictionary built by `fetch_all_github_repos` (github.py
lines 216-239). -/
structure RepoProject where
  name : Str
  description : Option Str
  github_url : Str
  live_url : Option Str
  technologies : List Str
  project_type : Str
  contributor_count : Nat
  github_details : GithubDetails
deriving DecidableEq

/-- Source: `github.fetch_repo_contributors` (github.py lines 139-166):
the length of the 200-status contributors response, or 1 when the call
does not return 200. -/
def fetch_repo_contributors (r : RepoData) : Nat :=
  match r.contributors_response with
  | some cs => cs.length
  | none => 1

/-- The repository filter of `fetch_all_github_repos` (github.py lines
205-207): forked repositories with fewer than 5 forks are skipped. -/
def keep_repo (r : RepoData) : Bool :=
  !(r.fork && decide (r.forks_count < 5))

/-- The per-repository record built by `fetch_all_github_repos` (github.py
lines 209-239): contributor count, project-type classification, and the
details dictionary. -/
def to_project (r : RepoData) : RepoProject :=
  let contributor_count := fetch_repo_contributors r
  { name := r.name
    description := r.description
    github_url := r.html_url
    live_url := match r.homepage with
      | some h => if h.isEmpty then none else some h
      | none => none
    technologies := match r.language with
      | some l => if l.isEmpty then [] else [l]
      | none => []
    project_type :=
      if contributor_count > 1 then strL "open_source" else strL "self_project"
    contributor_count := contributor_count
    github_details :=
      { stars := r.stargazers_count
        forks := r.forks_count
        language := r.language
        description := r.description
        created_at := r.created_at
        updated_at := r.updated_at
        topics := r.topics
        open_issues := r.open_issues_count
        size := r.size
        fork := r.fork
        archived := r.archived
        default_branch := r.default_branch
        contributors := contributor_count } }

/-- Descending order on star counts (the sort key of github.py line 243). -/
def stars_ge (a b : RepoProject) : Prop :=
  b.github_details.stars ≤ a.github_details.stars

instance : DecidableRel stars_ge := fun _ _ =>
  inferInstanceAs (Decidable (_ ≤ _))

/-- Stable insertion for the descending star sort: a new element goes
after every existing element with at least as many stars. -/
def starsDescInsert (p : RepoProject) : List RepoProject → List RepoProject
  | [] => [p]
  | q :: rest =>
    if p.github_details.stars ≤ q.github_details.stars then q :: starsDescInsert p rest
    else p :: q :: rest

/-- Helper: insert the elements one by one, left to right. -/
def starsDescInsertAll : List RepoProject → List RepoProject → List RepoProject
  | [], acc => acc
  | p :: rest, acc => starsDescInsertAll rest (starsDescInsert p acc)

/-- Models `projects.sort(key=lambda x: x['github_details']['stars'],
reverse=True)` (github.py line 243): a stable descending sort by stars. -/
def sort_by_stars_desc (l : List RepoProject) : List RepoProject :=
  starsDescInsertAll l []

/-- Source: the 200-status body of `github.fetch_all_github_repos`
(github.py lines 199-251): filter out small forks, build the project
records (with contributor counts), and sort by stars descending. -/
def fetch_all_github_repos (repos_data : List RepoData) : List RepoProject :=
  sort_by_stars_desc ((repos_data.filter keep_repo).map to_project)

/-- Spec-side definition (the source computes no such quantity): the
number of commits attributable to the profile owner, read off the
contributors response; follows the spec's words "commits attributable to
the profile owner". -/
def spec_owner_commit_count (username : Str) (r : RepoData) : Nat :=
  (((r.contributors_response.getD []).filter
      (fun c => c.login == username)).map Contributor.contributions).sum

/-- Membership in a stars-insert. -/
theorem mem_starsDescInsert {p x : RepoProject} {l : List RepoProject} :
    x ∈ starsDescInsert p l ↔ x = p ∨ x ∈ l := by
  induction l with
  | nil => simp [starsDescInsert]
  | cons q rest ih =>
    by_cases h : p.github_details.stars ≤ q.github_details.stars
    · simp only [starsDescInsert, if_pos h, List.mem_cons, ih]
      tauto
    · simp only [starsDescInsert, if_neg h, List.mem_cons]

/-- A stars-insert into a descending list stays descending. -/
theorem pairwise_starsDescInsert {p : RepoProject} {l : List RepoProject}
    (h : l.Pairwise stars_ge) : (starsDescInsert p l).Pairwise stars_ge := by
  induction l with
  | nil => simp [starsDescInsert, List.pairwise_singleton]
  | cons q rest ih =>
    rcases List.pairwise_cons.mp h with ⟨hq, hrest⟩
    by_cases hc : p.github_details.stars ≤ q.github_details.stars
    · rw [starsDescInsert, if_pos hc]
      refine List.pairwise_cons.mpr ⟨?_, ih hrest⟩
      intro x hx
      rcases mem_starsDescInsert.mp hx with rfl | hx'
      · exact hc
      · exact hq x hx'
    · rw [starsDescInsert, if_neg hc]
      refine List.pairwise_cons.mpr ⟨?_, h⟩
      intro x hx
      rcases List.mem_cons.mp hx with rfl | hx'
      · exact le_of_not_le hc
      · exact le_trans (hq x hx') (le_of_not_le hc)

/-- Membership in the insert-all helper. -/
theorem mem_starsDescInsertAll {x : RepoProject} :
    ∀ (l acc : List RepoProject), x ∈ starsDescInsertAll l acc ↔ x ∈ acc ∨ x ∈ l := by
  intro l
  induction l with
  | nil => simp [starsDescInsertAll]
  | cons p rest ih =>
    intro acc
    rw [starsDescInsertAll, ih]
    simp [mem_starsDescInsert]
    tauto

/-- The insert-all helper preserves descending order. -/
theorem pairwise_starsDescInsertAll :
    ∀ (l acc : List RepoProject), acc.Pairwise stars_ge →
      (starsDescInsertAll l acc).Pairwise stars_ge := by
  intro l
  induction l with
  | nil => intro acc h; exact h
  | cons p rest ih =>
    intro acc h
    exact ih _ (pairwise_starsDescInsert h)

/-- The enriched repository list is sorted by stars, descending. -/
theorem fetch_all_github_repos_sorted (repos_data : List RepoData) :
    (fetch_all_github_repos repos_data).Pairwise stars_ge :=
  pairwise_starsDescInsertAll _ [] List.Pairwise.nil

/-- C3 amended: membership in the enriched set is governed solely by the
fork filter — a repository appears in the output iff it is in the input
and is not a fork with fewer than 5 forks.  No owner-commit condition is
involved. -/
theorem fetch_all_github_repos_membership (repos_data : List RepoData)
    (p : RepoProject) :
    p ∈ fetch_all_github_repos repos_data
      ↔ ∃ r ∈ repos_data, keep_repo r = true ∧ p = to_project r := by
  unfold fetch_all_github_repos sort_by_stars_desc
  rw [mem_starsDescInsertAll]
  simp only [List.not_mem_nil, false_or, List.mem_map, List.mem_filter]
  constructor
  · rintro ⟨r, ⟨hr, hk⟩, rfl⟩
    exact ⟨r, hr, hk, rfl⟩
  · rintro ⟨r, hr, hk, rfl⟩
    exact ⟨r, ⟨hr, hk⟩, rfl⟩

/-- A non-fork repository none of whose listed contributors is the
profile owner. -/
def c3_repo : RepoData :=
  { name := strL "webapp"
    description := none
    html_url := strL "https://github.com/alice/webapp"
    homepage := none
    language := some (strL "Python")
    stargazers_count := 3
    forks_count := 0
    created_at := strL "2020-01-01"
    updated_at := strL "2024-01-01"
    topics := []
    open_issues_count := 0
    size := 10
    fork := false
    archived := false
    default_branch := strL "main"
    contributors_response := some [{ login := strL "alice", contributions := 7 }] }

/-- C3 counterexample: a repository to which the profile owner ("bob")
contributed zero commits is still returned by the enricher — no
owner-commit filtering exists in the code. -/
theorem fetch_all_github_repos_keeps_zero_commit_repo :
    to_project c3_repo ∈ fetch_all_github_repos [c3_repo]
    ∧ spec_owner_commit_count (strL "bob") c3_repo = 0 := by
  constructor
  · decide
  · rfl

/-- The outcome of the model-mediated top-5 selection call in
`generate_projects_json`: template rendering returned nothing (github.py
lines 355-372), the response failed to parse as JSON (lines 437-444, whose
undefined `debug_log` raises a `NameError` that lands in the outer
handler with the same resulting value), any other raised error (lines
446-465), or a parsed selection list (lines 408-435). -/
inductive SelectionOutcome where
  | templateFail
  | parseFail
  | callError
  | parsed (sel : List RepoProject)
deriving DecidableEq

/-- The selection call failed (unparsable response or any raised error,
including the template-rendering failure). -/
def SelectionOutcome.isFailure : SelectionOutcome → Bool
  | .parsed _ => false
  | _ => true

/-- The per-project field projection `generate_projects_json` applies
(github.py lines 318-327 and the identical copies): in the typed model
every key is present, so it rebuilds the record. -/
def project_data (p : RepoProject) : RepoProject :=
  { name := p.name
    description := p.description
    github_url := p.github_url
    live_url := p.live_url
    technologies := p.technologies
    project_type := p.project_type
    contributor_count := p.contributor_count
    github_details := p.github_details }

/-- The uniqueness pass over the parsed selection (github.py lines
410-418): keep the first occurrence of each non-empty name, returning
the kept list and the seen-name set. -/
def dedup_by_name : List RepoProject → List Str → List RepoProject × List Str
  | [], seen => ([], seen)
  | p :: rest, seen =>
    if !p.name.isEmpty && !(seen.contains p.name) then
      let r := dedup_by_name rest (p.name :: seen)
      (p :: r.1, r.2)
    else dedup_by_name rest seen

/-- The back-fill loop (github.py lines 420-431): add further unseen
projects from the star-sorted pool until five are collected. -/
def backfill_to_five (uniq : List RepoProject) (seen : List Str) :
    List RepoProject → List RepoProject
  | [] => uniq
  | p :: rest =>
    if uniq.length ≥ 5 then uniq
    else if !p.name.isEmpty && !(seen.contains p.name) then
      backfill_to_five (uniq ++ [p]) (p.name :: seen) rest
    else backfill_to_five uniq seen rest

/-- Source: `github.generate_projects_json` (github.py lines 301-465),
with the selection call's outcome passed in explicitly.  With five or
fewer projects it returns their projections before any template or model
interaction; on a failed call it returns the first five projections; on
a parsed selection it deduplicates by name and back-fills to five. -/
def generate_projects_json (projects : List RepoProject)
    (outcome : SelectionOutcome) : List RepoProject :=
  if projects.isEmpty then []
  else if projects.length ≤ 5 then projects.map project_data
  else
    let projects_data := projects.map project_data
    match outcome with
    | .templateFail => (projects.take 5).map project_data
    | .parseFail => projects_data.take 5
    | .callError => (projects.take 5).map project_data
    | .parsed sel =>
      let r := dedup_by_name sel []
      if r.1.length < 5 then backfill_to_five r.1 r.2 projects_data else r.1

/-- In the typed model the field projection is the identity. -/
theorem project_data_eq (p : RepoProject) : project_data p = p := rfl

/-- Mapping the field projection over a list is the identity. -/
theorem map_project_data (l : List RepoProject) : l.map project_data = l := by
  have h : project_data = id := funext fun p => rfl
  rw [h, List.map_id]

/-- C4: whenever the selection call fails (unparsable response, raised
error, or template failure), `generate_projects_json` returns exactly the
first five entries of the enricher's repository list, which is sorted
descending by star count — a deterministic fallback with no other
change. -/
theorem generate_projects_json_failure_fallback (repos_data : List RepoData)
    (o : SelectionOutcome) (h : o.isFailure = true) :
    generate_projects_json (fetch_all_github_repos repos_data) o
        = (fetch_all_github_repos repos_data).take 5
    ∧ (fetch_all_github_repos repos_data).Pairwise stars_ge := by
  refine ⟨?_, fetch_all_github_repos_sorted repos_data⟩
  generalize fetch_all_github_repos repos_data = l
  unfold generate_projects_json
  by_cases he : l.isEmpty
  · rw [if_pos he, List.isEmpty_iff.mp he, List.take_nil]
  · rw [if_neg he]
    by_cases h5 : l.length ≤ 5
    · rw [if_pos h5, map_project_data, List.take_of_length_le h5]
    · rw [if_neg h5]
      cases o with
      | templateFail => simp [map_project_data, List.map_take]
      | parseFail => simp [map_project_data]
      | callError => simp [map_project_data, List.map_take]
      | parsed sel => exact absurd h (by simp [SelectionOutcome.isFailure])

/-- C10: with at most five projects, `generate_projects_json` returns the
input unchanged and in the same order, for every selection outcome — the
early return happens before any template rendering or model call. -/
theorem generate_projects_json_small_input (projects : List RepoProject)
    (o : SelectionOutcome) (h : projects.length ≤ 5) :
    generate_projects_json projects o = projects := by
  unfold generate_projects_json
  by_cases he : projects.isEmpty
  · rw [if_pos he, List.isEmpty_iff.mp he]
  · rw [if_neg he, if_pos h, map_project_data]

/-- Builds a non-fork test repository with the given name and stars. -/
def mkTestRepo (name : String) (stars : Nat) : RepoData :=
  { name := strL name
    description := none
    html_url := strL "https://github.com/u/r"
    homepage := none
    language := none
    stargazers_count := stars
    forks_count := 0
    created_at := strL "2020-01-01"
    updated_at := strL "2024-01-01"
    topics := []
    open_issues_count := 0
    size := 1
    fork := false
    archived := false
    default_branch := strL "main"
    contributors_response := some [{ login := strL "u", contributions := 2 }] }

/-- Six repositories with distinct star counts. -/
def c4_repos : List RepoData :=
  [mkTestRepo "r1" 10, mkTestRepo "r2" 40, mkTestRepo "r3" 5,
   mkTestRepo "r4" 25, mkTestRepo "r5" 0, mkTestRepo "r6" 31]

/-- C4 witness: the fallback evaluated on six concrete repositories with
a parse failure. -/
theorem generate_projects_json_failure_fallback_witness :
    SelectionOutcome.parseFail.isFailure = true
    ∧ generate_projects_json (fetch_all_github_repos c4_repos) .parseFail
        = (fetch_all_github_repos c4_repos).take 5 :=
  ⟨by decide,
   (generate_projects_json_failure_fallback c4_repos .parseFail (by decide)).1⟩

/-- Two concrete projects for the small-input witness. -/
def c10_projects : List RepoProject :=
  [to_project (mkTestRepo "s1" 7), to_project (mkTestRepo "s2" 3)]

/-- C10 witness: a two-element input is returned unchanged even on a
would-be call error. -/
theorem generate_projects_json_small_input_witness :
    c10_projects.length ≤ 5
    ∧ generate_projects_json c10_projects .callError = c10_projects :=
  ⟨by decide, generate_projects_json_small_input c10_projects .callError (by decide)⟩

/-!
## models.py: the typed resume and evaluation data model

`Resume` namespaces the pydantic models of models.py.  Python numbers
(ints and floats) are modelled as `Rat`.
-/

namespace Resume

/-- models.py `Location`. -/
structure Location where
  address : Option Str := none
  postalCode : Option Str := none
  city : Option Str := none
  countryCode : Option Str := none
  region : Option Str := none
deriving DecidableEq

/-- models.py `Profile` (`url` is required). -/
structure Profile where
  network : Option Str := none
  username : Option Str := none
  url : Str
deriving DecidableEq

/-- models.py `Basics` (`name` is required). -/
structure Basics where
  name : Str
  email : Option Str := none
  phone : Option Str := none
  url : Option Str := none
  summary : Option Str := none
  location : Option Location := none
  profiles : Option (List Profile) := none
deriving DecidableEq

/-- models.py `Work`. -/
structure Work where
  name : Option Str := none
  position : Option Str := none
  url : Option Str := none
  startDate : Option Str := none
  endDate : Option Str := none
  summary : Option Str := none
  highlights : Option (List Str) := none
deriving DecidableEq

/-- models.py `Volunteer`. -/
structure Volunteer where
  organization : Option Str := none
  position : Option Str := none
  url : Option Str := none
  startDate : Option Str := none
  endDate : Option Str := none
  summary : Option Str := none
  highlights : Option (List Str) := none
deriving DecidableEq

/-- models.py `Education`. -/
structure Education where
  institution : Option Str := none
  url : Option Str := none
  area : Option Str := none
  studyType : Option Str := none
  startDate : Option Str := none
  endDate : Option Str := none
  score : Option Str := none
  courses : Option (List Str) := none
deriving DecidableEq

/-- models.py `Award`. -/
structure Award where
  title : Option Str := none
  date : Option Str := none
  awarder : Option Str := none
  summary : Option Str := none
deriving DecidableEq

/-- models.py `Certificate`. -/
structure Certificate where
  name : Option Str := none
  date : Option Str := none
  issuer : Option Str := none
  url : Option Str := none
deriving DecidableEq

/-- models.py `Publication`. -/
structure Publication where
  name : Option Str := none
  publisher : Option Str := none
  releaseDate : Option Str := none
  url : Option Str := none
  summary : Option Str := none
deriving DecidableEq

/-- models.py `Skill`. -/
structure Skill where
  name : Option Str := none
  level : Option Str := none
  keywords : Option (List Str) := none
deriving DecidableEq

/-- models.py `Language`. -/
structure Language where
  language : Option Str := none
  fluency : Option Str := none
deriving DecidableEq

/-- models.py `Interest`. -/
structure Interest where
  name : Option Str := none
  keywords : Option (List Str) := none
deriving DecidableEq

/-- models.py `Reference`. -/
structure Reference where
  name : Option Str := none
  reference : Option Str := none
deriving DecidableEq

/-- models.py `Project`. -/
structure Project where
  name : Option Str := none
  startDate : Option Str := none
  endDate : Option Str := none
  description : Option Str := none
  highlights : Option (List Str) := none
  url : Option Str := none
  technologies : Option (List Str) := none
  skills : Option (List Str) := none
deriving DecidableEq

/-- models.py `JSONResume`. -/
structure JSONResume where
  basics : Option Basics := none
  work : Option (List Work) := none
  volunteer : Option (List Volunteer) := none
  education : Option (List Education) := none
  awards : Option (List Award) := none
  certificates : Option (List Certificate) := none
  publications : Option (List Publication) := none
  skills : Option (List Skill) := none
  languages : Option (List Language) := none
  interests : Option (List Interest) := none
  references : Option (List Reference) := none
  projects : Option (List Project) := none
deriving DecidableEq

/-- models.py `CategoryScore` (`score` is a float, `max` an int). -/
structure CategoryScore where
  score : Rat
  max : Int
  evidence : Str
deriving DecidableEq

/-- models.py `Scores`: the four mandatory categories. -/
structure Scores where
  open_source : CategoryScore
  self_projects : CategoryScore
  production : CategoryScore
  technical_skills : CategoryScore
deriving DecidableEq

/-- models.py `BonusPoints` (`total` is schema-capped to [0, 20]). -/
structure BonusPoints where
  total : Rat
  breakdown : Str
deriving DecidableEq

/-- models.py `Deductions` (`total` is stored non-negative). -/
structure Deductions where
  total : Rat
  reasons : Str
deriving DecidableEq

/-- models.py `EvaluationData`.  Note: it declares no `candidate_name`
field. -/
structure EvaluationData where
  scores : Scores
  bonus_points : BonusPoints
  deductions : Deductions
  key_strengths : List Str
  areas_for_improvement : List Str
deriving DecidableEq

end Resume

/-!
## evaluator.py: `_create_evaluation_result` and its result model (C1)
-/

/-- evaluator.py `EvaluationResult` (lines 22-29), with pydantic's
validation of `total_score` and `final_score` modelled at construction. -/
structure EvaluationResult where
  candidate_name : Str
  total_score : Rat
  final_score : Rat
  category_breakdown : List (Str × (Rat × Str))
  scoring_explanation : Str
  key_strengths : List Str
  areas_for_improvement : List Str
deriving DecidableEq

/-- The attribute read `data.candidate_name` performed at evaluator.py
line 705: `models.EvaluationData` declares no `candidate_name` field and
pydantic drops the unknown key from the parsed dictionary, so the read
raises `AttributeError`; modelled as `none`. -/
def Resume.EvaluationData.candidate_name_attr (_ : Resume.EvaluationData) : Option Str :=
  none

/-- The base-score sum of evaluator.py lines 664-669. -/
def evaluator_total_score (data : Resume.EvaluationData) : Rat :=
  data.scores.open_source.score + data.scores.self_projects.score
    + data.scores.production.score + data.scores.technical_skills.score

/-- The final score of evaluator.py line 671: base + bonus − deductions. -/
def evaluator_final_score (data : Resume.EvaluationData) : Rat :=
  evaluator_total_score data + data.bonus_points.total - data.deductions.total

/-- The category-breakdown dictionary of evaluator.py lines 673-700
(insertion order preserved; a `Deductions` entry only when positive). -/
def category_breakdown_of (data : Resume.EvaluationData) : List (Str × (Rat × Str)) :=
  let base :=
    [(strL "Open Source", (data.scores.open_source.score, data.scores.open_source.evidence)),
     (strL "Self Projects", (data.scores.self_projects.score, data.scores.self_projects.evidence)),
     (strL "Production", (data.scores.production.score, data.scores.production.evidence)),
     (strL "Technical Skills", (data.scores.technical_skills.score, data.scores.technical_skills.evidence)),
     (strL "Bonus Points", (data.bonus_points.total, data.bonus_points.breakdown))]
  if data.deductions.total > 0 then
    base ++ [(strL "Deductions", (-data.deductions.total, data.deductions.reasons))]
  else base

/-- Renders a number for the f-strings of the explanation text.  Python
prints floats with a decimal point; values with a non-power-of-ten
denominator do not arise from the sources' arithmetic, and no verified
property depends on this text. -/
def ratRepr (q : Rat) : Str :=
  if q.den = 1 then strL (toString q.num) ++ strL ".0"
  else strL (toString q.num) ++ strL "/" ++ strL (toString q.den)

/-- The explanation text of `_create_scoring_explanation` (evaluator.py
lines 714-737). -/
def create_scoring_explanation (data : Resume.EvaluationData)
    (total_score final_score : Rat) : Str :=
  let parts : List Str :=
    [strL "Base Score: " ++ ratRepr total_score ++ strL "/100",
     strL "  - Open Source: " ++ ratRepr data.scores.open_source.score ++ strL "/35",
     strL "  - Self Projects: " ++ ratRepr data.scores.self_projects.score ++ strL "/30",
     strL "  - Production: " ++ ratRepr data.scores.production.score ++ strL "/25",
     strL "  - Technical Skills: " ++ ratRepr data.scores.technical_skills.score ++ strL "/10"]
  let parts := parts ++
    (if data.bonus_points.total > 0 then
      [strL "Bonus Points: +" ++ ratRepr data.bonus_points.total,
       strL "  - " ++ data.bonus_points.breakdown]
     else [strL "Bonus Points: +0"])
  let parts := parts ++
    (if data.deductions.total > 0 then
      [strL "Deductions: -" ++ ratRepr data.deductions.total,
       strL "  - " ++ data.deductions.reasons]
     else [strL "Deductions: -0"])
  let parts := parts ++
    [strL "Final Score: " ++ ratRepr total_score ++ strL " + "
      ++ ratRepr data.bonus_points.total ++ strL " - "
      ++ ratRepr data.deductions.total ++ strL " = " ++ ratRepr final_score]
  (parts.intersperse (strL "\n")).flatten

/-- Source: `ResumeEvaluator._create_evaluation_result` (evaluator.py
lines 663-712).  The score arithmetic and breakdown are computed, then
the `EvaluationResult` construction reads `data.candidate_name` (line
705) — an attribute `models.EvaluationData` does not have — before
pydantic would validate `total_score` ∈ [0, 100] and `final_score` ∈
[-20, 120]. -/
def create_evaluation_result (data : Resume.EvaluationData) : Option EvaluationResult :=
  let total_score := evaluator_total_score data
  let final_score := evaluator_final_score data
  let category_breakdown := category_breakdown_of data
  let scoring_explanation := create_scoring_explanation data total_score final_score
  match data.candidate_name_attr with
  | none => none
  | some name =>
    if 0 ≤ total_score ∧ total_score ≤ 100
        ∧ -20 ≤ final_score ∧ final_score ≤ 120 then
      some { candidate_name := name
             total_score := total_score
             final_score := final_score
             category_breakdown := category_breakdown
             scoring_explanation := scoring_explanation
             key_strengths := data.key_strengths
             areas_for_improvement := data.areas_for_improvement }
    else none

/-- A schema-valid evaluation: 20/35, 15/30, 10/25, 7/10, bonus 5,
no deductions — base 52, final 57. -/
def c1_example_data : Resume.EvaluationData :=
  { scores :=
      { open_source := { score := 20, max := 35, evidence := strL "Merged PRs in two OSS projects" }
        self_projects := { score := 15, max := 30, evidence := strL "Three substantial personal projects" }
        production := { score := 10, max := 25, evidence := strL "One year of production work" }
        technical_skills := { score := 7, max := 10, evidence := strL "Broad stack coverage" } }
    bonus_points := { total := 5, breakdown := strL "Google Summer of Code (GSoC) participation" }
    deductions := { total := 0, reasons := strL "No deductions applied" }
    key_strengths := [strL "Strong open source contributions with significant impact"]
    areas_for_improvement := [strL "Gain more production environment experience"] }

/-- C1 (code-bug evidence): the formula of evaluator.py line 671 computes
base + bonus − deductions (57 at the failing input), but
`_create_evaluation_result` can never produce a result: the
`data.candidate_name` read fails for every `EvaluationData`, models.py
having no such field. -/
theorem create_evaluation_result_never_succeeds :
    (∀ data : Resume.EvaluationData, create_evaluation_result data = none)
    ∧ evaluator_final_score c1_example_data = 57
    ∧ create_evaluation_result c1_example_data = none := by
  refine ⟨fun data => rfl, ?_, rfl⟩
  norm_num [evaluator_final_score, evaluator_total_score, c1_example_data]

/-!
## A kernel-computable model of Python numbers and JSON values

`PyNum` represents a Python number as an unreduced fraction whose
denominator is `denMinusOne + 1` (hence always positive); all operations
are integer arithmetic, so concrete values evaluate by `decide`/`rfl`.
`JVal` models a parsed JSON value (`json.loads` output).
-/

/-- A Python number (int or float) as the fraction
`num / (denMinusOne + 1)`. -/
structure PyNum where
  num : Int
  denMinusOne : Nat
deriving DecidableEq

/-- The (always positive) denominator. -/
def PyNum.den (p : PyNum) : Int := (p.denMinusOne : Int) + 1

/-- Embeds an integer. -/
def PyNum.ofInt (i : Int) : PyNum := ⟨i, 0⟩

instance pyNumOfNat (n : Nat) : OfNat PyNum n := ⟨PyNum.ofInt n⟩

/-- The represented rational value. -/
def PyNum.toRat (p : PyNum) : Rat := (p.num : Rat) / (p.den : Rat)

/-- Numeric equality (`==` on numbers). -/
def PyNum.eqB (a b : PyNum) : Bool := decide (a.num * b.den = b.num * a.den)

/-- Numeric strict order (`<`). -/
def PyNum.ltB (a b : PyNum) : Bool := decide (a.num * b.den < b.num * a.den)

/-- Numeric order (`<=`). -/
def PyNum.leB (a b : PyNum) : Bool := decide (a.num * b.den ≤ b.num * a.den)

/-- Numeric strict order (`>`). -/
def PyNum.gtB (a b : PyNum) : Bool := PyNum.ltB b a

/-- Numeric order (`>=`). -/
def PyNum.geB (a b : PyNum) : Bool := PyNum.leB b a

/-- Addition. -/
def PyNum.add (a b : PyNum) : PyNum :=
  ⟨a.num * b.den + b.num * a.den, (a.denMinusOne + 1) * (b.denMinusOne + 1) - 1⟩

/-- Multiplication. -/
def PyNum.mul (a b : PyNum) : PyNum :=
  ⟨a.num * b.num, (a.denMinusOne + 1) * (b.denMinusOne + 1) - 1⟩

/-- Division by a number whose numerator is positive (the sources guard
every division with a `> 0` test). -/
def PyNum.divPos (a b : PyNum) : PyNum :=
  ⟨a.num * b.den, (a.denMinusOne + 1) * b.num.toNat - 1⟩

/-- If `q > n` is false then the represented value is at most `n`. -/
theorem PyNum.toRat_le_of_gtB_ofInt_false (q : PyNum) (n : Int)
    (h : PyNum.gtB q (PyNum.ofInt n) = false) : q.toRat ≤ (n : Rat) := by
  have hint : q.num ≤ n * q.den := by
    simp only [PyNum.gtB, PyNum.ltB, PyNum.ofInt, PyNum.den,
      decide_eq_false_iff_not, not_lt] at h
    simpa using h
  have hd : (0 : Rat) < (q.den : Rat) := by
    have : (0 : Int) < q.den := by
      simp only [PyNum.den]
      omega
    exact_mod_cast this
  rw [PyNum.toRat, div_le_iff₀ hd]
  calc (q.num : Rat) ≤ ((n * q.den : Int) : Rat) := by exact_mod_cast hint
    _ = (n : Rat) * (q.den : Rat) := by push_cast; ring

/-- The rational value of an embedded integer. -/
theorem PyNum.toRat_ofInt (i : Int) : (PyNum.ofInt i).toRat = (i : Rat) := by
  simp [PyNum.toRat, PyNum.ofInt, PyNum.den]

/-- A parsed JSON value.  Numbers are `PyNum`; objects are association
lists preserving insertion order (Python dicts). -/
inductive JVal where
  | null
  | bool (b : Bool)
  | num (q : PyNum)
  | str (s : Str)
  | arr (xs : List JVal)
  | obj (kvs : List (Str × JVal))

mutual
/-- Python `==` on JSON values (dict comparison is modelled
order-sensitively; the sources only compare lists of strings). -/
def jBeq : JVal → JVal → Bool
  | .null, .null => true
  | .bool a, .bool b => a == b
  | .num a, .num b => PyNum.eqB a b
  | .str a, .str b => a == b
  | .arr a, .arr b => jBeqList a b
  | .obj a, .obj b => jBeqObj a b
  | _, _ => false
def jBeqList : List JVal → List JVal → Bool
  | [], [] => true
  | x :: xs, y :: ys => jBeq x y && jBeqList xs ys
  | _, _ => false
def jBeqObj : List (Str × JVal) → List (Str × JVal) → Bool
  | [], [] => true
  | (k1, v1) :: xs, (k2, v2) :: ys => k1 == k2 && jBeq v1 v2 && jBeqObj xs ys
  | _, _ => false
end

/-- First-match association lookup (Python dict keys are unique). -/
def assocFind? : List (Str × JVal) → Str → Option JVal
  | [], _ => none
  | (k', v) :: rest, k => if k' == k then some v else assocFind? rest k

/-- `dict.get(k, d)`. -/
def assocGetD (l : List (Str × JVal)) (k : Str) (d : JVal) : JVal :=
  (assocFind? l k).getD d

/-- `k in dict`. -/
def assocHasKey (l : List (Str × JVal)) (k : Str) : Bool :=
  (assocFind? l k).isSome

/-- `dict[k] = v`: replace in place or append. -/
def assocSet : List (Str × JVal) → Str → JVal → List (Str × JVal)
  | [], k, v => [(k, v)]
  | (k', v') :: rest, k, v =>
    if k' == k then (k', v) :: rest else (k', v') :: assocSet rest k v

/-- `del dict[k]` (first match). -/
def assocDel : List (Str × JVal) → Str → List (Str × JVal)
  | [], _ => []
  | (k', v') :: rest, k => if k' == k then rest else (k', v') :: assocDel rest k

/-- Whether the value is a dict (`isinstance(v, dict)`). -/
def JVal.isDict : JVal → Bool
  | .obj _ => true
  | _ => false

/-- Python truthiness of a JSON value. -/
def jFalsy : JVal → Bool
  | .null => true
  | .bool b => !b
  | .num q => PyNum.eqB q 0
  | .str s => s.isEmpty
  | .arr l => l.isEmpty
  | .obj l => l.isEmpty

/-- `v.items()` / keyword expansion: requires a dict (`AttributeError`
otherwise, modelled as `none`). -/
def jDict? : JVal → Option (List (Str × JVal))
  | .obj kvs => some kvs
  | _ => none

/-- A string value, or `none` where Python would raise on a string
method. -/
def jStrOf : JVal → Option Str
  | .str s => some s
  | _ => none

/-- `container[k]` for a string key: association lookup on a dict
(`KeyError` → `none`); `TypeError` on anything else. -/
def jIndexK : JVal → Str → Option JVal
  | .obj kvs, k => assocFind? kvs k
  | _, _ => none

/-- `v.get(k, d)` used only where `v` is known to be a dict; on a
non-dict it returns the default (the guarded sources never reach that
case). -/
def jGetD (v : JVal) (k : Str) (d : JVal) : JVal :=
  match v with
  | .obj kvs => assocGetD kvs k d
  | _ => d

/-- `dict[k] = v` on a JSON value (the sources only assign into dicts). -/
def jSet (d : JVal) (k : Str) (v : JVal) : JVal :=
  match d with
  | .obj kvs => .obj (assocSet kvs k v)
  | _ => d

/-- `del dict[k]` on a JSON value. -/
def jDel (d : JVal) (k : Str) : JVal :=
  match d with
  | .obj kvs => .obj (assocDel kvs k)
  | _ => d

/-- Whether a dict value has a key (`k in v` for a known dict). -/
def jHasKeyB (v : JVal) (k : Str) : Bool :=
  match v with
  | .obj kvs => assocHasKey kvs k
  | _ => false

/-- Python `k in container`: key test on dicts, substring test on
strings, membership on lists; `TypeError` (`none`) otherwise. -/
def jContainsKey : JVal → Str → Option Bool
  | .obj kvs, k => some (assocHasKey kvs k)
  | .str s, k => some (pyContains s k)
  | .arr xs, k => some (xs.any (fun v => jBeq v (.str k)))
  | _, _ => none

/-- A numeric view: numbers, and booleans as 0/1 (Python bools are
ints); `none` models a `TypeError` in arithmetic or comparison. -/
def jAsNum : JVal → Option PyNum
  | .num q => some q
  | .bool b => some (PyNum.ofInt (if b then 1 else 0))
  | _ => none

/-- `v > n` for an integer literal `n`. -/
def jGt (v : JVal) (n : Int) : Option Bool :=
  (jAsNum v).map (fun q => PyNum.gtB q (PyNum.ofInt n))

/-- `v >= n` for an integer literal `n`. -/
def jGe (v : JVal) (n : Int) : Option Bool :=
  (jAsNum v).map (fun q => PyNum.geB q (PyNum.ofInt n))

/-- Python `max(a, b)` on two numeric values (keeps the original value). -/
def jMaxJ (a b : JVal) : Option JVal := do
  let x ← jAsNum a
  let y ← jAsNum b
  pure (if PyNum.geB x y then a else b)

/-- Python `min(a, b)` on two numeric values. -/
def jMinJ (a b : JVal) : Option JVal := do
  let x ← jAsNum a
  let y ← jAsNum b
  pure (if PyNum.leB x y then a else b)

/-- Python `str(v)` / f-string interpolation of a JSON value.  Integral
numbers render exactly; non-integral float repr and container repr are
approximated (no verified property depends on this text). -/
def jFmt (v : JVal) : Str :=
  match v with
  | .null => strL "None"
  | .bool b => if b then strL "True" else strL "False"
  | .num q =>
    if q.denMinusOne = 0 then strL (toString q.num)
    else strL (toString q.num) ++ strL "/" ++ strL (toString (q.denMinusOne + 1))
  | .str s => s
  | .arr _ => strL "<list>"
  | .obj _ => strL "<dict>"

/-!
## evaluator.py: JSON extraction post-processing (C2)

`_extract_json` (evaluator.py lines 300-358) locates and parses a JSON
object in the model response (regex + `json.loads`, an external-text
boundary); every successful parse path then applies the same check: if
`candidate_name` or `scores` is missing the field-completion fallback
`_complete_missing_fields` runs, otherwise the parsed value is returned
unchanged.  The model below starts from the parsed value.
-/

/-- The marker phrases of `_enforce_scoring_rules` (evaluator.py lines
598-603). -/
def enforce_markers : List Str :=
  [strL "only personal github repositories",
   strL "no contributions to other projects",
   strL "no evidence of significant open source contributions",
   strL "only personal projects"]

/-- The disclosure suffix appended on a clamp (evaluator.py line 607). -/
def enforce_suffix : Str :=
  strL " (Score capped at 10 due to only personal repositories)"

/-- Source: `ResumeEvaluator._enforce_scoring_rules` (evaluator.py lines
593-609): when the open-source evidence (lower-cased) contains a marker
phrase and the score exceeds 10, clamp the score to 10 and append the
disclosure suffix.  `none` models a raised `TypeError`/`AttributeError`
(non-dict indexing, non-string evidence, non-numeric comparison). -/
def enforce_scoring_rules (scores : JVal) : Option JVal :=
  match jContainsKey scores (strL "open_source") with
  | none => none
  | some false => some scores
  | some true =>
    match jIndexK scores (strL "open_source") with
    | none => none
    | some od =>
      if od.isDict then
        match jStrOf (jGetD od (strL "evidence") (.str [])) with
        | none => none
        | some ev =>
          if enforce_markers.any (fun m => pyContains (pyLower ev) m) then
            match jGt (jGetD od (strL "score") (.num 0)) 10 with
            | none => none
            | some true =>
              match jIndexK od (strL "evidence") with
              | none => none
              | some orig =>
                match jStrOf orig with
                | none => none
                | some origs =>
                  some (jSet scores (strL "open_source")
                    (jSet (jSet od (strL "score") (.num 10)) (strL "evidence")
                      (.str (origs ++ enforce_suffix))))
            | some false => some scores
          else some scores
      else some scores

/-- The name-candidate test of `_complete_missing_fields` (evaluator.py
lines 366-369): non-empty, short, at most four words, every word
capitalized. -/
def line_is_name_candidate (line : Str) : Bool :=
  !line.isEmpty && decide (line.length < 100)
    && decide ((pySplitWS line).length ≤ 4)
    && (pySplitWS line).all (fun w =>
        match w with
        | c :: _ => c.isUpper
        | [] => true)

/-- Candidate-name inference (evaluator.py lines 363-374): the first
qualifying line among the first five lines of the last resume text,
with a `Name:` prefix stripped. -/
def infer_candidate_name (last_text : Option Str) : Str :=
  match last_text with
  | none => strL "Unknown Candidate"
  | some txt =>
    match ((pySplit (strL "\n") txt).take 5).map pyStrip |>.find? line_is_name_candidate with
    | some line =>
      if (strL "Name:").isPrefixOf line then pyStrip (line.drop 5) else line
    | none => strL "Unknown Candidate"

/-- The category alias table (evaluator.py lines 397-412). -/
def category_mapping : List (Str × Str) :=
  [(strL "backend", strL "production"),
   (strL "frontend", strL "self_projects"),
   (strL "general", strL "technical_skills"),
   (strL "projects", strL "self_projects"),
   (strL "skills", strL "technical_skills"),
   (strL "experience", strL "production"),
   (strL "programming_skills", strL "technical_skills"),
   (strL "problem_solving_skills", strL "technical_skills"),
   (strL "problem_solving", strL "technical_skills"),
   (strL "communication_skills", strL "production"),
   (strL "technical_skills", strL "technical_skills"),
   (strL "self_projects", strL "self_projects"),
   (strL "production", strL "production"),
   (strL "open_source", strL "open_source")]

/-- A default category entry `{score: 0, max: m, evidence: "No data
available"}`. -/
def default_category (m : Int) : JVal :=
  .obj [(strL "score", .num 0), (strL "max", .num (PyNum.ofInt m)),
        (strL "evidence", .str (strL "No data available"))]

/-- The initial scores structure (evaluator.py lines 376-395): the
`scores` value when present, else a four-category structure pulled from
top-level category keys, else all defaults. -/
def cmf_initial_scores (kvs : List (Str × JVal)) : JVal :=
  if assocHasKey kvs (strL "scores") then assocGetD kvs (strL "scores") .null
  else if assocHasKey kvs (strL "open_source") then
    .obj [(strL "open_source", assocGetD kvs (strL "open_source") (default_category 35)),
          (strL "self_projects", assocGetD kvs (strL "self_projects") (default_category 30)),
          (strL "production", assocGetD kvs (strL "production") (default_category 25)),
          (strL "technical_skills", assocGetD kvs (strL "technical_skills") (default_category 10))]
  else
    .obj [(strL "open_source", default_category 35),
          (strL "self_projects", default_category 30),
          (strL "production", default_category 25),
          (strL "technical_skills", default_category 10)]

/-- One step of the category-remapping loop (evaluator.py lines
414-442): a dict item carrying a `score` is remapped through the alias
table and merged (max of scores, capped at the category max) or
installed (capped). -/
def cmf_map_step (scores : JVal) (category : Str) (score_data : JVal) : Option JVal :=
  if score_data.isDict && jHasKeyB score_data (strL "score") then do
    let mapped := lookupD category_mapping category category
    let b ← jContainsKey scores mapped
    if b then do
      let entry ← jIndexK scores mapped
      let exScore ← jIndexK entry (strL "score")
      let gt0 ← jGt exScore 0
      if gt0 then do
        let newScore ← jIndexK score_data (strL "score")
        let combined ← jMaxJ exScore newScore
        let maxv ← jIndexK entry (strL "max")
        let combined2 ← jMinJ combined maxv
        let exEv := jGetD entry (strL "evidence") (.str (strL "No evidence available"))
        let newEv := jGetD score_data (strL "evidence") (.str (strL "No evidence available"))
        pure (jSet scores mapped (.obj
          [(strL "score", combined2), (strL "max", maxv),
           (strL "evidence", .str (jFmt exEv ++ strL " | " ++ jFmt newEv))]))
      else do
        let maxv ← jIndexK entry (strL "max")
        let newScore ← jIndexK score_data (strL "score")
        let capped ← jMinJ newScore maxv
        pure (jSet scores mapped (.obj
          [(strL "score", capped), (strL "max", jGetD score_data (strL "max") maxv),
           (strL "evidence", jGetD score_data (strL "evidence")
              (.str (strL "No evidence available")))]))
    else pure scores
  else pure scores

/-- The category-remapping loop over the parsed top-level items. -/
def cmf_apply_category_mapping (kvs : List (Str × JVal)) (scores0 : JVal) :
    Option JVal :=
  kvs.foldlM (fun sc kv => cmf_map_step sc kv.1 kv.2) scores0

/-- The `eviidence` typo-repair loop (evaluator.py lines 446-450). -/
def cmf_fix_evidence_typo (scores : JVal) : Option JVal := do
  let kvs ← jDict? scores
  pure (kvs.foldl (fun sc kv =>
    let v := jGetD sc kv.1 .null
    if v.isDict && jHasKeyB v (strL "eviidence") then
      jSet sc kv.1 (jDel (jSet v (strL "evidence") (jGetD v (strL "eviidence") .null))
        (strL "eviidence"))
    else sc) scores)

/-- The GSoC needles (evaluator.py lines 458, 465, 469). -/
def gsoc_needles : List Str := [strL "GSoC", strL "Google Summer of Code"]

/-- The Girl Script needle (evaluator.py lines 477, 484, 488). -/
def girl_needles : List Str := [strL "Girl Script Summer of Code"]

/-- Truthy string field containing one of the needles. -/
def opt_str_mentions (o : Option Str) (needles : List Str) : Bool :=
  match o with
  | some s => !s.isEmpty && needles.any (fun n => pyContains s n)
  | none => false

/-- Truthiness of an optional list field. -/
def list_truthy {α : Type} : Option (List α) → Bool
  | some l => !l.isEmpty
  | none => false

/-- The bonus-point computation of `_complete_missing_fields`
(evaluator.py lines 452-509), over the typed resume record stored by
`evaluate_resume_from_json` (`none` when only the text path ran and the
attribute is unset). -/
def compute_bonus (rd : Option Resume.JSONResume) : PyNum × Str :=
  match rd with
  | none => (0, strL "No bonus points identified")
  | some r =>
    let acc : PyNum × List Str := (0, [])
    let acc :=
      if list_truthy r.projects
          && (r.projects.getD []).any (fun p => opt_str_mentions p.name gsoc_needles) then
        (acc.1.add 5, acc.2 ++ [strL "Google Summer of Code (GSoC) participation"])
      else acc
    let acc :=
      if list_truthy r.work
          && (r.work.getD []).any (fun w =>
              opt_str_mentions w.name gsoc_needles
                || opt_str_mentions w.summary gsoc_needles) then
        (acc.1.add 5, acc.2 ++ [strL "Google Summer of Code (GSoC) participation"])
      else acc
    let acc :=
      if list_truthy r.projects
          && (r.projects.getD []).any (fun p => opt_str_mentions p.name girl_needles) then
        (acc.1.add 3, acc.2 ++ [strL "Girl Script Summer of Code participation"])
      else acc
    let acc :=
      if list_truthy r.work
          && (r.work.getD []).any (fun w =>
              opt_str_mentions w.name girl_needles
                || opt_str_mentions w.summary girl_needles) then
        (acc.1.add 3, acc.2 ++ [strL "Girl Script Summer of Code participation"])
      else acc
    let acc :=
      match r.basics with
      | some b =>
        if (match b.url with
            | some u => !u.isEmpty && pyContains u (strL "github.com")
            | none => false) then
          (acc.1.add 2, acc.2 ++ [strL "Portfolio website (GitHub)"])
        else acc
      | none => acc
    let acc :=
      match r.basics with
      | some b =>
        if list_truthy b.profiles
            && (b.profiles.getD []).any (fun p =>
                match p.network with
                | some n => !n.isEmpty && pyLower n == strL "linkedin"
                | none => false) then
          (acc.1.add 1, acc.2 ++ [strL "LinkedIn profile"])
        else acc
      | none => acc
    (acc.1,
     if acc.2.isEmpty then strL "No bonus points identified"
     else ((acc.2.intersperse (strL ", ")).flatten))

/-- The open-source exclusion phrases of
`_generate_strengths_from_scores` (evaluator.py lines 545-551). -/
def strength_markers : List Str :=
  [strL "no evidence of significant open source contributions",
   strL "no demonstrable open source activity",
   strL "only personal github repositories",
   strL "no contributions to other projects",
   strL "lack of contributions to other projects"]

/-- One item of the strengths loop (evaluator.py lines 538-582). -/
def gen_strength_step (acc : List Str) (category : Str) (score_data : JVal) :
    Option (List Str) :=
  if score_data.isDict && jHasKeyB score_data (strL "score")
      && jHasKeyB score_data (strL "evidence") then
    let score := jGetD score_data (strL "score") .null
    if category == strL "open_source" then do
      let pos ← jGt score 0
      if pos then do
        let ev ← jStrOf (jGetD score_data (strL "evidence") (.str []))
        let evl := pyLower ev
        if strength_markers.any (fun m => pyContains evl m) then pure acc
        else do
          let b20 ← jGe score 20
          if b20 then pure (acc ++ [strL "Strong open source contributions with significant impact"])
          else do
            let b15 ← jGe score 15
            if b15 then pure (acc ++ [strL "Active participation in open source projects"])
            else do
              let b12 ← jGe score 12
              if b12 then pure (acc ++ [strL "Some open source involvement and community contributions"])
              else pure acc
      else pure acc
    else if category == strL "self_projects" then do
      let pos ← jGt score 0
      if pos then do
        let b20 ← jGe score 20
        if b20 then pure (acc ++ [strL "Impressive portfolio of self-initiated projects"])
        else do
          let b10 ← jGe score 10
          if b10 then pure (acc ++ [strL "Good variety of personal projects demonstrating technical skills"])
          else do
            let b5 ← jGe score 5
            if b5 then pure (acc ++ [strL "Some personal projects showing initiative"])
            else pure acc
      else pure acc
    else if category == strL "production" then do
      let pos ← jGt score 0
      if pos then do
        let b15 ← jGe score 15
        if b15 then pure (acc ++ [strL "Significant production experience at scale"])
        else do
          let b10 ← jGe score 10
          if b10 then pure (acc ++ [strL "Good production environment experience"])
          else do
            let b5 ← jGe score 5
            if b5 then pure (acc ++ [strL "Some production-level work experience"])
            else pure acc
      else pure acc
    else if category == strL "technical_skills" then do
      let pos ← jGt score 0
      if pos then do
        let b7 ← jGe score 7
        if b7 then pure (acc ++ [strL "Strong technical skills across multiple technologies"])
        else do
          let b5 ← jGe score 5
          if b5 then pure (acc ++ [strL "Good technical breadth and problem-solving abilities"])
          else do
            let b3 ← jGe score 3
            if b3 then pure (acc ++ [strL "Demonstrated technical skills in relevant areas"])
            else pure acc
      else pure acc
    else pure acc
  else pure acc

/-- `sum(score_data.get('score', 0) for ... if isinstance(..., dict))`
(evaluator.py lines 585, 655). -/
def sum_scores (kvs : List (Str × JVal)) : Option PyNum :=
  kvs.foldlM (fun acc kv =>
    if kv.2.isDict then
      (jAsNum (jGetD kv.2 (strL "score") (.num 0))).map (fun n => acc.add n)
    else pure acc) 0

/-- Source: `_generate_strengths_from_scores` (evaluator.py lines
535-591). -/
def generate_strengths_from_scores (scores : JVal) : Option (List Str) := do
  let kvs ← jDict? scores
  let strengths ← kvs.foldlM (fun acc kv => gen_strength_step acc kv.1 kv.2) []
  let strengths ←
    if strengths.isEmpty then do
      let total ← sum_scores kvs
      if PyNum.gtB total 0 then
        pure [strL "Demonstrates technical capabilities and learning potential"]
      else pure [strL "Shows interest in software development"]
    else pure strengths
  pure (strengths.take 5)

/-- One item of the improvements loop (evaluator.py lines 614-652). -/
def gen_improvement_step (acc : List Str) (category : Str) (score_data : JVal) :
    Option (List Str) :=
  if score_data.isDict && jHasKeyB score_data (strL "score")
      && jHasKeyB score_data (strL "evidence") then do
    let score := jGetD score_data (strL "score") .null
    let maxv := jGetD score_data (strL "max") (.num 0)
    let mpos ← jGt maxv 0
    let percentage ←
      if mpos then do
        let s ← jAsNum score
        let m ← jAsNum maxv
        pure ((s.divPos m).mul 100)
      else pure (0 : PyNum)
    if category == strL "open_source" && PyNum.ltB percentage 70 then
      if PyNum.ltB percentage 30 then
        pure (acc ++ [strL "Significantly increase open source contributions and community engagement"])
      else if PyNum.ltB percentage 50 then
        pure (acc ++ [strL "Build more substantial open source presence and contributions"])
      else pure (acc ++ [strL "Enhance open source contributions and project impact"])
    else if category == strL "self_projects" && PyNum.ltB percentage 70 then
      if PyNum.ltB percentage 30 then
        pure (acc ++ [strL "Develop more complex and impactful personal projects"])
      else if PyNum.ltB percentage 50 then
        pure (acc ++ [strL "Create projects with better documentation and user adoption"])
      else pure (acc ++ [strL "Enhance project complexity and real-world impact"])
    else if category == strL "production" && PyNum.ltB percentage 70 then
      if PyNum.ltB percentage 30 then
        pure (acc ++ [strL "Gain more production environment experience"])
      else if PyNum.ltB percentage 50 then
        pure (acc ++ [strL "Seek opportunities for larger-scale production work"])
      else pure (acc ++ [strL "Expand production experience and responsibilities"])
    else if category == strL "technical_skills" && PyNum.ltB percentage 70 then
      if PyNum.ltB percentage 30 then
        pure (acc ++ [strL "Strengthen technical skills and problem-solving abilities"])
      else if PyNum.ltB percentage 50 then
        pure (acc ++ [strL "Develop broader technical expertise"])
      else pure (acc ++ [strL "Enhance technical depth and competitive programming skills"])
    else pure acc
  else pure acc

/-- Source: `_generate_improvements_from_scores` (evaluator.py lines
611-661). -/
def generate_improvements_from_scores (scores : JVal) : Option (List Str) := do
  let kvs ← jDict? scores
  let improvements ← kvs.foldlM (fun acc kv => gen_improvement_step acc kv.1 kv.2) []
  let improvements ←
    if improvements.isEmpty then do
      let total ← sum_scores kvs
      if PyNum.ltB total 50 then
        pure [strL "Focus on building a stronger technical portfolio"]
      else pure [strL "Continue developing technical skills and project impact"]
    else pure improvements
  pure (improvements.take 3)

/-- The evaluator state read by `_complete_missing_fields`:
`_last_resume_text` (set by `evaluate_resume`) and `_last_resume_data`
(set only by `evaluate_resume_from_json`). -/
structure EvalCtx where
  last_resume_text : Option Str
  last_resume_data : Option Resume.JSONResume

/-- The placeholder list compared at evaluator.py line 514. -/
def no_strengths_placeholder : JVal :=
  .arr [.str (strL "No specific strengths identified")]

/-- The placeholder list compared at evaluator.py line 517. -/
def no_areas_placeholder : JVal :=
  .arr [.str (strL "No specific areas identified")]

/-- The key-strengths selection (evaluator.py lines 511-515): the parsed
value unless absent, falsy, or the placeholder, in which case the
strengths are derived from the (pre-enforcement) scores. -/
def cmf_key_strengths (kvs : List (Str × JVal)) (scores2 : JVal) : Option JVal :=
  let ks0 := assocGetD kvs (strL "key_strengths") (.arr [])
  if jFalsy ks0 || jBeq ks0 no_strengths_placeholder then
    (generate_strengths_from_scores scores2).map (fun l => JVal.arr (l.map JVal.str))
  else some ks0

/-- The areas-for-improvement selection (evaluator.py lines 512-518). -/
def cmf_areas (kvs : List (Str × JVal)) (scores2 : JVal) : Option JVal :=
  let ai0 := assocGetD kvs (strL "areas_for_improvement") (.arr [])
  if jFalsy ai0 || jBeq ai0 no_areas_placeholder then
    (generate_improvements_from_scores scores2).map (fun l => JVal.arr (l.map JVal.str))
  else some ai0

/-- Source: `ResumeEvaluator._complete_missing_fields` (evaluator.py
lines 360-533): name inference, scores derivation, category remapping,
typo repair, bonus computation, strength/improvement derivation (from
the pre-enforcement scores), the rule-enforcement pass, and assembly of
the completed structure.  `none` models a raised exception. -/
def complete_missing_fields (ctx : EvalCtx) (partial_json : JVal) : Option JVal := do
  let candidate_name := infer_candidate_name ctx.last_resume_text
  let kvs ← jDict? partial_json
  let scores0 := cmf_initial_scores kvs
  let scores1 ← cmf_apply_category_mapping kvs scores0
  let scores2 ← cmf_fix_evidence_typo scores1
  let bonus := compute_bonus ctx.last_resume_data
  let ks ← cmf_key_strengths kvs scores2
  let ai ← cmf_areas kvs scores2
  let scores3 ← enforce_scoring_rules scores2
  pure (JVal.obj
    [(strL "candidate_name", .str candidate_name),
     (strL "scores", scores3),
     (strL "bonus_points", assocGetD kvs (strL "bonus_points")
        (.obj [(strL "total", .num bonus.1), (strL "breakdown", .str bonus.2)])),
     (strL "deductions", assocGetD kvs (strL "deductions")
        (.obj [(strL "total", .num 0), (strL "reasons", .str (strL "No deductions applied"))])),
     (strL "key_strengths", ks),
     (strL "areas_for_improvement", ai)])

/-- Source: the post-parse handling shared by all three parse paths of
`ResumeEvaluator._extract_json` (evaluator.py lines 323-327, 333-337,
350-354): run the field-completion fallback iff `candidate_name` or
`scores` is missing (short-circuit `or`, as in the source), else return
the parsed value unchanged. -/
def extract_json_parsed (ctx : EvalCtx) (parsed : JVal) : Option JVal := do
  let hasName ← jContainsKey parsed (strL "candidate_name")
  if !hasName then complete_missing_fields ctx parsed
  else do
    let hasScores ← jContainsKey parsed (strL "scores")
    if !hasScores then complete_missing_fields ctx parsed
    else pure parsed

/-!
## Claim theorems for the rule-enforcement pass (C2)
-/

/-- Lookup after setting the same key. -/
theorem assocFind_assocSet_same (l : List (Str × JVal)) (k : Str) (v : JVal) :
    assocFind? (assocSet l k v) k = some v := by
  induction l with
  | nil => simp [assocSet, assocFind?]
  | cons p rest ih =>
    obtain ⟨k0, v0⟩ := p
    by_cases h : (k0 == k) = true
    · simp [assocSet, assocFind?, h]
    · simp only [assocSet, h, Bool.false_eq_true, if_false, assocFind?, ih]

/-- Lookup after setting a different key. -/
theorem assocFind_assocSet_other (l : List (Str × JVal)) (k k' : Str) (v : JVal)
    (hkk : (k == k') = false) :
    assocFind? (assocSet l k v) k' = assocFind? l k' := by
  induction l with
  | nil => simp [assocSet, assocFind?, hkk]
  | cons p rest ih =>
    obtain ⟨k0, v0⟩ := p
    by_cases h : (k0 == k) = true
    · have hk0 : k0 = k := by simpa using h
      subst hk0
      simp [assocSet, assocFind?, hkk]
    · simp only [assocSet, h, Bool.false_eq_true, if_false, assocFind?]
      by_cases h' : (k0 == k') = true
      · simp [h']
      · simp only [h', Bool.false_eq_true, if_false, ih]

/-- If the enforcement pass succeeds, the returned open-source entry
cannot carry a marker phrase together with a numeric score above 10. -/
theorem enforce_scoring_rules_open_source_bound
    (s s' osV : JVal) (ev : Str) (q : PyNum)
    (henf : enforce_scoring_rules s = some s')
    (hos : jIndexK s' (strL "open_source") = some osV)
    (hev : jStrOf (jGetD osV (strL "evidence") (.str [])) = some ev)
    (hmark : enforce_markers.any (fun m => pyContains (pyLower ev) m) = true)
    (hscore : jGetD osV (strL "score") (.num 0) = .num q) :
    q.toRat ≤ 10 := by
  unfold enforce_scoring_rules at henf
  split at henf
  · exact Option.noConfusion henf
  · -- the key is absent (or the container is a string without it): no change
    next hck =>
    have hs : s = s' := (Option.some.injEq _ _).mp henf
    subst hs
    cases s with
    | obj kvs =>
      simp only [jContainsKey, Option.some.injEq] at hck
      simp only [jIndexK] at hos
      simp [assocHasKey, hos] at hck
    | str t => exact Option.noConfusion hos
    | arr xs => exact Option.noConfusion hos
    | null => simp [jContainsKey] at hck
    | bool bb => simp [jContainsKey] at hck
    | num qq => simp [jContainsKey] at hck
  · next hck =>
    split at henf
    · exact Option.noConfusion henf
    · next od hix =>
      split at henf
      · -- the open-source entry is a dict
        next hd =>
        split at henf
        · exact Option.noConfusion henf
        · next ev0 hstr =>
          split at henf
          · -- marker found
            next hm =>
            split at henf
            · exact Option.noConfusion henf
            · -- score > 10: clamp to 10 and append the suffix
              next hgt =>
              split at henf
              · exact Option.noConfusion henf
              · next orig horig =>
                split at henf
                · exact Option.noConfusion henf
                · next origs hors =>
                  have hs : _ = s' := (Option.some.injEq _ _).mp henf
                  subst hs
                  cases s with
                  | obj kvs =>
                    cases od with
                    | obj okvs =>
                      simp only [jSet, jIndexK] at hos
                      rw [assocFind_assocSet_same] at hos
                      have hosv : osV =
                          JVal.obj (assocSet (assocSet okvs (strL "score") (.num 10))
                            (strL "evidence") (.str (origs ++ enforce_suffix))) :=
                        ((Option.some.injEq _ _).mp hos).symm
                      subst hosv
                      simp only [jGetD, assocGetD] at hscore
                      rw [assocFind_assocSet_other _ _ _ _ (by decide),
                        assocFind_assocSet_same] at hscore
                      simp only [Option.getD_some, JVal.num.injEq] at hscore
                      subst hscore
                      rw [show (10 : PyNum) = PyNum.ofInt 10 from rfl, PyNum.toRat_ofInt]
                      norm_num
                    | null => exact Bool.noConfusion hd
                    | bool x => exact Bool.noConfusion hd
                    | num x => exact Bool.noConfusion hd
                    | str x => exact Bool.noConfusion hd
                    | arr x => exact Bool.noConfusion hd
                  | null => exact Option.noConfusion hix
                  | bool x => exact Option.noConfusion hix
                  | num x => exact Option.noConfusion hix
                  | str x => exact Option.noConfusion hix
                  | arr x => exact Option.noConfusion hix
            · -- score not above 10: unchanged, and the hypothesis score is it
              next hgt =>
              have hs : s = s' := (Option.some.injEq _ _).mp henf
              subst hs
              rw [hix] at hos
              have hosv : osV = od := ((Option.some.injEq _ _).mp hos).symm
              subst hosv
              rw [hscore] at hgt
              have hb : PyNum.gtB q (PyNum.ofInt 10) = false := by
                simpa [jGt, jAsNum] using hgt
              have h10 : ((10 : Int) : Rat) = (10 : Rat) := by norm_num
              exact h10 ▸ PyNum.toRat_le_of_gtB_ofInt_false q 10 hb
          · -- no marker in the function's own evidence: contradicts hmark
            next hm =>
            have hs : s = s' := (Option.some.injEq _ _).mp henf
            subst hs
            rw [hix] at hos
            have hosv : osV = od := ((Option.some.injEq _ _).mp hos).symm
            subst hosv
            rw [hstr] at hev
            have hev0 : ev0 = ev := (Option.some.injEq _ _).mp hev
            subst hev0
            exact absurd hmark hm
      · -- the open-source entry is not a dict: unchanged, default evidence
        next hd =>
        have hs : s = s' := (Option.some.injEq _ _).mp henf
        subst hs
        rw [hix] at hos
        have hosv : osV = od := ((Option.some.injEq _ _).mp hos).symm
        subst hosv
        have hdefault : jGetD osV (strL "evidence") (.str []) = .str [] := by
          cases osV <;> simp_all [JVal.isDict, jGetD]
        rw [hdefault] at hev
        have hev0 : ev = [] := ((Option.some.injEq _ _).mp hev).symm
        subst hev0
        exact absurd hmark (by decide)

/-- A complete parsed response (both `candidate_name` and `scores`
present) whose open-source evidence carries a marker phrase and whose
score is 35. -/
def c2_complete_parsed : JVal :=
  .obj [(strL "candidate_name", .str (strL "Jane Doe")),
        (strL "scores", .obj [(strL "open_source",
           .obj [(strL "score", .num 35), (strL "max", .num 35),
                 (strL "evidence", .str (strL "Only personal GitHub repositories"))])])]

/-- C2 counterexample: on the complete-parse path `_extract_json` never
applies `_enforce_scoring_rules`: a response whose open-source evidence
contains the marker phrase keeps its score of 35 (not ≤ 10) and gets no
disclosure suffix — the pass is not "always applied after parsing". -/
theorem extract_json_skips_rule_enforcement :
    extract_json_parsed ⟨none, none⟩ c2_complete_parsed = some c2_complete_parsed
    ∧ pyContains (pyLower (strL "Only personal GitHub repositories"))
        (strL "only personal github repositories") = true
    ∧ jGetD (jGetD (jGetD c2_complete_parsed (strL "scores") .null)
        (strL "open_source") .null) (strL "score") .null = .num 35
    ∧ ¬ ((35 : PyNum).toRat ≤ 10) := by
  refine ⟨rfl, by decide, rfl, ?_⟩
  rw [show (35 : PyNum) = PyNum.ofInt 35 from rfl, PyNum.toRat_ofInt]
  norm_num

/-- C2 amended: the rule-enforcement pass runs only inside the
field-completion fallback.  (1) A parsed response that has both
`candidate_name` and `scores` is returned unchanged — no enforcement.
(2) When `candidate_name` is missing the fallback runs.  (3) Whenever
the fallback completes, a marker phrase in the returned open-source
evidence forces the returned numeric open-source score to be at most
10. -/
theorem extract_json_rule_enforcement_amended :
    (∀ (ctx : EvalCtx) (parsed : JVal),
        jContainsKey parsed (strL "candidate_name") = some true →
        jContainsKey parsed (strL "scores") = some true →
        extract_json_parsed ctx parsed = some parsed)
    ∧ (∀ (ctx : EvalCtx) (parsed : JVal),
        jContainsKey parsed (strL "candidate_name") = some false →
        extract_json_parsed ctx parsed = complete_missing_fields ctx parsed)
    ∧ (∀ (ctx : EvalCtx) (parsed out scoresV osV : JVal) (ev : Str) (q : PyNum),
        complete_missing_fields ctx parsed = some out →
        jIndexK out (strL "scores") = some scoresV →
        jIndexK scoresV (strL "open_source") = some osV →
        jStrOf (jGetD osV (strL "evidence") (.str [])) = some ev →
        enforce_markers.any (fun m => pyContains (pyLower ev) m) = true →
        jGetD osV (strL "score") (.num 0) = .num q →
        q.toRat ≤ 10) := by
  refine ⟨?_, ?_, ?_⟩
  · intro ctx parsed h1 h2
    simp [extract_json_parsed, h1, h2]
  · intro ctx parsed h1
    simp [extract_json_parsed, h1]
  · intro ctx parsed out scoresV osV ev q hcmf hsc hos hev hmark hscore
    unfold complete_missing_fields at hcmf
    obtain ⟨kvs, hkvs, hcmf⟩ := Option.bind_eq_some.mp hcmf
    obtain ⟨scores1, h1, hcmf⟩ := Option.bind_eq_some.mp hcmf
    obtain ⟨scores2, h2, hcmf⟩ := Option.bind_eq_some.mp hcmf
    obtain ⟨ks, hks, hcmf⟩ := Option.bind_eq_some.mp hcmf
    obtain ⟨ai, hai, hcmf⟩ := Option.bind_eq_some.mp hcmf
    obtain ⟨scores3, h3, hcmf⟩ := Option.bind_eq_some.mp hcmf
    have hout : out = JVal.obj
        [(strL "candidate_name", .str (infer_candidate_name ctx.last_resume_text)),
         (strL "scores", scores3),
         (strL "bonus_points", assocGetD kvs (strL "bonus_points")
            (.obj [(strL "total", .num (compute_bonus ctx.last_resume_data).1),
                   (strL "breakdown", .str (compute_bonus ctx.last_resume_data).2)])),
         (strL "deductions", assocGetD kvs (strL "deductions")
            (.obj [(strL "total", .num 0),
                   (strL "reasons", .str (strL "No deductions applied"))])),
         (strL "key_strengths", ks),
         (strL "areas_for_improvement", ai)] :=
      ((Option.some.injEq _ _).mp hcmf).symm
    subst hout
    have hfind : scoresV = scores3 := by
      simp only [jIndexK, assocFind?] at hsc
      rw [if_neg (by decide), if_pos (by decide)] at hsc
      exact ((Option.some.injEq _ _).mp hsc).symm
    subst hfind
    exact enforce_scoring_rules_open_source_bound scores2 scoresV osV ev q h3 hos hev hmark hscore

/-- The evaluator state for the C2 witness: neither attribute set. -/
def c2_ctx : EvalCtx := ⟨none, none⟩

/-- A fallback input: no `candidate_name`/`scores` keys, one top-level
open-source entry with a marker phrase and a score of 35. -/
def c2_fallback_parsed : JVal :=
  .obj [(strL "open_source",
    .obj [(strL "score", .num 35), (strL "max", .num 35),
          (strL "evidence", .str (strL "only personal projects"))])]

/-- The completed structure for the C2 witness input. -/
def c2_fallback_out : JVal :=
  (complete_missing_fields c2_ctx c2_fallback_parsed).getD .null

/-- The scores of the completed structure. -/
def c2_out_scores : JVal := (jIndexK c2_fallback_out (strL "scores")).getD .null

/-- The open-source entry of the completed structure. -/
def c2_out_os : JVal := (jIndexK c2_out_scores (strL "open_source")).getD .null

/-- The open-source evidence of the completed structure. -/
def c2_out_ev : Str := (jStrOf (jGetD c2_out_os (strL "evidence") (.str []))).getD []

/-- C2 amended witness: the complete-path identity at a concrete
response, and the fallback bound at a concrete marker-carrying input
(whose clamped score is exactly 10). -/
theorem extract_json_rule_enforcement_amended_witness :
    extract_json_parsed c2_ctx c2_complete_parsed = some c2_complete_parsed
    ∧ (10 : PyNum).toRat ≤ 10 :=
  ⟨extract_json_rule_enforcement_amended.1 c2_ctx c2_complete_parsed rfl rfl,
   extract_json_rule_enforcement_amended.2.2 c2_ctx c2_fallback_parsed
     c2_fallback_out c2_out_scores c2_out_os c2_out_ev 10
     rfl rfl rfl rfl rfl rfl⟩

/-!
## pdf.py: per-section transforms, typed coercion, and assembly (C5)
-/

/-- Python `for item in v`: lists iterate elements, strings iterate
characters, dicts iterate keys; `None`/numbers/booleans raise
(`TypeError`, modelled as `none`). -/
def jIterate : JVal → Option (List JVal)
  | .arr xs => some xs
  | .str s => some (s.map (fun c => .str [c]))
  | .obj kvs => some (kvs.map (fun kv => .str kv.1))
  | _ => none

/-- Python truthiness. -/
def jTruthy (v : JVal) : Bool := !(jFalsy v)

/-- `d.get(k1, d.get(k2, d.get(k3, dflt)))`. -/
def jGetD3 (d : JVal) (k1 k2 k3 : Str) (dflt : JVal) : JVal :=
  jGetD d k1 (jGetD d k2 (jGetD d k3 dflt))

/-- `' '.join(xs)`: every element must be a string. -/
def joinSpace (xs : List JVal) : Option Str := do
  let ss ← xs.mapM jStrOf
  pure ((ss.intersperse (strL " ")).flatten)

/-- The month-number table of `PDFHandler._parse_date_range` (pdf.py
lines 753-754 and 779-780). -/
def pdf_month_map : List (Str × Str) :=
  [(strL "Jan", strL "01"), (strL "Feb", strL "02"), (strL "Mar", strL "03"),
   (strL "Apr", strL "04"), (strL "May", strL "05"), (strL "Jun", strL "06"),
   (strL "Jul", strL "07"), (strL "Aug", strL "08"), (strL "Sep", strL "09"),
   (strL "Oct", strL "10"), (strL "Nov", strL "11"), (strL "Dec", strL "12")]

/-- The `"2007-2019"` branch of `PDFHandler._parse_date_range` (pdf.py
lines 759-761), reached by fall-through. -/
def pdf_year_range_start (s : Str) : Option Str :=
  if pyContains s (strL "-") && (pySplit (strL "-") s).length == 2 then
    some ((pySplit (strL "-") s).headD [] ++ strL "-01")
  else none

/-- Source: `PDFHandler._parse_date_range` (pdf.py lines 743-763). -/
def pdf_parse_date_range (s : Str) : Option Str :=
  if s.isEmpty then none
  else if pyContains s (strL " ")
      && month_names.any (fun m => pyContains s m) then
    let parts := pySplit (strL " ") s
    if parts.length ≥ 2 then
      some (parts.getLastD [] ++ strL "-"
        ++ lookupD pdf_month_map (parts.headD []) (strL "01"))
    else pdf_year_range_start s
  else pdf_year_range_start s

/-- The `"2007-2019"` branch of `PDFHandler._parse_end_date` (pdf.py
lines 785-787). -/
def pdf_year_range_end (s : Str) : Option Str :=
  if pyContains s (strL "-") && (pySplit (strL "-") s).length == 2 then
    some ((pySplit (strL "-") s).getLastD [] ++ strL "-12")
  else none

/-- Source: `PDFHandler._parse_end_date` (pdf.py lines 765-789). -/
def pdf_parse_end_date (s : Str) : Option Str :=
  if s.isEmpty then none
  else if pyContains s (strL "onwards") then some (strL "Present")
  else if pyContains s (strL " ")
      && month_names.any (fun m => pyContains s m) then
    let parts := pySplit (strL " ") s
    if parts.length ≥ 3 then
      some (parts.getLastD [] ++ strL "-"
        ++ lookupD pdf_month_map (parts.getD 1 []) (strL "12"))
    else pdf_year_range_end s
  else pdf_year_range_end s

/-- `_parse_date_range` applied to a JSON value: strings are parsed,
falsy values return `None`; a non-string truthy argument (which would
engage Python's membership operators on containers) is modelled as an
error — the call sites pass strings or falsy defaults. -/
def pdf_parse_date_range_j (v : JVal) : Option JVal :=
  match v with
  | .str s =>
    some (match pdf_parse_date_range s with
      | some r => .str r
      | none => .null)
  | _ => if jFalsy v then some .null else none

/-- `_parse_end_date` applied to a JSON value (as above). -/
def pdf_parse_end_date_j (v : JVal) : Option JVal :=
  match v with
  | .str s =>
    some (match pdf_parse_end_date s with
      | some r => .str r
      | none => .null)
  | _ => if jFalsy v then some .null else none

/-- Source: `PDFHandler._transform_work_experience` (pdf.py lines
539-558): non-dict items are skipped; a list-valued description is
space-joined; dates come from `years` when present. -/
def transform_work_experience_p (work_list : JVal) : Option JVal := do
  let items ← jIterate work_list
  let l ← items.foldlM (fun acc item =>
    if item.isDict then do
      let desc0 := jGetD item (strL "description") (.str [])
      let desc ←
        match desc0 with
        | .arr xs => (joinSpace xs).map JVal.str
        | v => pure v
      let sd ←
        if jHasKeyB item (strL "years") then
          pdf_parse_date_range_j (jGetD item (strL "years") (.str []))
        else pure (jGetD item (strL "startDate") .null)
      let ed ←
        if jHasKeyB item (strL "years") then
          pdf_parse_end_date_j (jGetD item (strL "years") (.str []))
        else pure (jGetD item (strL "endDate") .null)
      pure (acc ++ [JVal.obj
        [(strL "name", jGetD item (strL "name") (.str [])),
         (strL "position", jGetD item (strL "position")
            (jGetD item (strL "type") (jGetD item (strL "title") (.str [])))),
         (strL "url", jGetD item (strL "url") .null),
         (strL "startDate", sd),
         (strL "endDate", ed),
         (strL "summary", jGetD item (strL "summary") desc),
         (strL "highlights", jGetD item (strL "highlights") (.arr []))]])
    else pure acc) []
  pure (JVal.arr l)

/-- Source: `PDFHandler._transform_organizations` (pdf.py lines
560-574). -/
def transform_organizations_p (org_list : JVal) : Option JVal := do
  let items ← jIterate org_list
  pure (JVal.arr (items.filterMap (fun item =>
    if item.isDict then
      some (JVal.obj
        [(strL "organization", jGetD item (strL "name") (.str [])),
         (strL "position", jGetD item (strL "role") (.str [])),
         (strL "url", jGetD item (strL "url") .null),
         (strL "startDate", .null),
         (strL "endDate", .str (strL "Present")),
         (strL "summary", .null),
         (strL "highlights", .arr [])])
    else none)))

/-- Source: `PDFHandler._transform_education` (pdf.py lines 576-601):
items with a `degree` key are rebuilt (splitting `"studyType, area"`,
stringifying the score, parsing `years`); others pass through.  A
non-string `degree` (whose `','`-membership test would raise) is
modelled as an error. -/
def transform_education_p (edu_list : JVal) : Option JVal := do
  let items ← jIterate edu_list
  let l ← items.foldlM (fun acc item =>
    if item.isDict then
      if jHasKeyB item (strL "degree") then do
        let score0 := jGetD item (strL "gpa") (jGetD item (strL "percentage") .null)
        let score : JVal :=
          match score0 with
          | .null => .null
          | v => .str (jFmt v)
        let deg ← jStrOf (jGetD item (strL "degree") (.str []))
        let area : JVal :=
          if pyContains deg (strL ",") then
            .str ((pySplit (strL ", ") deg).getLastD [])
          else .null
        let studyType : JVal :=
          if pyContains deg (strL ",") then
            .str ((pySplit (strL ", ") deg).headD [])
          else .str deg
        let sd ← pdf_parse_date_range_j (jGetD item (strL "years") (.str []))
        let ed ← pdf_parse_end_date_j (jGetD item (strL "years") (.str []))
        pure (acc ++ [JVal.obj
          [(strL "institution", jGetD item (strL "institution") (.str [])),
           (strL "url", jGetD item (strL "url") .null),
           (strL "area", area),
           (strL "studyType", studyType),
           (strL "startDate", sd),
           (strL "endDate", ed),
           (strL "score", score),
           (strL "courses", .arr [])]])
      else pure (acc ++ [item])
    else pure acc) []
  pure (JVal.arr l)

/-- Source: `PDFHandler._transform_achievements` (pdf.py lines
603-619). -/
def transform_achievements_p (ach_list : JVal) : Option JVal := do
  let items ← jIterate ach_list
  pure (JVal.arr (items.filterMap (fun item =>
    if item.isDict then
      some (JVal.obj
        [(strL "title", jGetD item (strL "title") (jGetD item (strL "name") (.str []))),
         (strL "date",
           if jTruthy (jGetD item (strL "year") .null) then
             .str (jFmt (jGetD item (strL "year") (.str [])) ++ strL "-01")
           else .null),
         (strL "awarder", jGetD item (strL "awarder") (jGetD item (strL "organization") (.str []))),
         (strL "summary", jGetD item (strL "summary") (jGetD item (strL "description") .null))])
    else none)))

/-- Source: `PDFHandler._transform_skills` (pdf.py lines 621-636). -/
def transform_skills_p (skills_list : JVal) : Option JVal := do
  let items ← jIterate skills_list
  pure (JVal.arr (items.filterMap (fun item =>
    if item.isDict then
      some (if jHasKeyB item (strL "category") then
        JVal.obj
          [(strL "name", jGetD item (strL "category") (.str [])),
           (strL "level", .null),
           (strL "keywords", jGetD item (strL "keywords") (.arr []))]
      else item)
    else none)))

/-- Source: `PDFHandler._transform_skills_comprehensive` (pdf.py lines
675-705): a flat list of strings becomes one "Programming Languages"
group; otherwise the list form is transformed; the three auxiliary keys
become their own groups. -/
def transform_skills_comprehensive_p (d : JVal) : Option JVal := do
  let base ←
    match jGetD d (strL "skills") .null with
    | .arr xs =>
      match xs with
      | (JVal.str _) :: _ =>
        pure [JVal.obj
          [(strL "name", .str (strL "Programming Languages")),
           (strL "level", .null),
           (strL "keywords", .arr xs)]]
      | _ => do
        let t ← transform_skills_p (.arr xs)
        match t with
        | .arr l => pure l
        | _ => pure []
    | _ => pure ([] : List JVal)
  let cats := [(strL "librariesFrameworks", strL "Libraries/Frameworks"),
               (strL "toolsPlatforms", strL "Tools/Platforms"),
               (strL "databases", strL "Databases")]
  let extra := cats.filterMap (fun fc =>
    match jGetD d fc.1 .null with
    | .arr xs =>
      some (JVal.obj
        [(strL "name", .str fc.2), (strL "level", .null), (strL "keywords", .arr xs)])
    | _ => none)
  pure (JVal.arr (base ++ extra))

/-- The `"|"`-in-name skill extraction shared by the two project
transforms (pdf.py lines 644-652 and 719-728): returns the updated
name and the extracted skills.  A non-string name (whose membership
test or `split` would raise) is modelled as an error unless it is a
list without a `"|"` element. -/
def project_name_split (pname : JVal) : Option (JVal × JVal) :=
  match pname with
  | .str s =>
    if pyContains s (strL "|") then
      let parts := pySplit (strL "|") s
      let skills_part := pyStrip (parts.getD 1 [])
      some (.str (pyStrip (parts.headD [])),
        .arr (((pySplit (strL ",") skills_part).map pyStrip).map JVal.str))
    else some (pname, .arr [])
  | .arr xs =>
    if xs.any (fun e => jBeq e (.str (strL "|"))) then none
    else some (pname, .arr [])
  | _ => none

/-- Source: `PDFHandler._transform_projects` (pdf.py lines 638-673). -/
def transform_projects_p (projects_list : JVal) : Option JVal := do
  let items ← jIterate projects_list
  let l ← items.foldlM (fun acc item =>
    if item.isDict then do
      let ns ← project_name_split (jGetD item (strL "name") (.str []))
      let technologies :=
        match jGetD item (strL "technologies") (.arr []) with
        | .str s => JVal.arr (((pySplit (strL ",") s).map pyStrip).map JVal.str)
        | v => v
      let skills := if jFalsy ns.2 && jTruthy technologies then technologies else ns.2
      pure (acc ++ [JVal.obj
        [(strL "name", ns.1),
         (strL "startDate", .null),
         (strL "endDate", .null),
         (strL "description", jGetD item (strL "description") (.str [])),
         (strL "highlights",
           if jTruthy (jGetD item (strL "type") .null) then
             JVal.arr [jGetD item (strL "type") (.str [])]
           else .arr []),
         (strL "url", jGetD item (strL "url") .null),
         (strL "technologies", technologies),
         (strL "skills", skills)]])
    else pure acc) []
  pure (JVal.arr l)

/-- Source: the `projectsOpenSource` loop of
`PDFHandler._transform_projects_comprehensive` (pdf.py lines 716-739):
like `_transform_projects` but with `summary` as the description, empty
highlights and no technologies fallback for skills. -/
def transform_projects_open_source_p (v : JVal) : Option JVal := do
  let items ← jIterate v
  let l ← items.foldlM (fun acc item =>
    if item.isDict then do
      let ns ← project_name_split (jGetD item (strL "name") (.str []))
      pure (acc ++ [JVal.obj
        [(strL "name", ns.1),
         (strL "startDate", .null),
         (strL "endDate", .null),
         (strL "description", jGetD item (strL "summary") (.str [])),
         (strL "highlights", .arr []),
         (strL "url", jGetD item (strL "url") .null),
         (strL "technologies", jGetD item (strL "technologies") (.arr [])),
         (strL "skills", ns.2)]])
    else pure acc) []
  pure (JVal.arr l)

/-- Source: `PDFHandler._transform_projects_comprehensive` (pdf.py lines
707-741). -/
def transform_projects_comprehensive_p (d : JVal) : Option JVal := do
  let p1 ←
    if jHasKeyB d (strL "projects") then do
      let v ← jIndexK d (strL "projects")
      let t ← transform_projects_p v
      match t with
      | .arr l => pure l
      | _ => pure ([] : List JVal)
    else pure ([] : List JVal)
  let p2 ←
    if jHasKeyB d (strL "projectsOpenSource") then do
      let v ← jIndexK d (strL "projectsOpenSource")
      let t ← transform_projects_open_source_p v
      match t with
      | .arr l => pure l
      | _ => pure ([] : List JVal)
    else pure ([] : List JVal)
  pure (JVal.arr (p1 ++ p2))

/-- The dict-shaped body of `PDFHandler._transform_parsed_data` (pdf.py
lines 513-531), evaluated in the source's key order; `none` models a
raised exception inside the `try`. -/
def transform_parsed_inner (d : JVal) : Option JVal :=
  match d with
  | .obj kvs => do
    let basics := assocGetD kvs (strL "basics") (.obj [])
    let work ← transform_work_experience_p
      (jGetD3 d (strL "work_experience") (strL "work") (strL "experience") (.arr []))
    let volunteer ← transform_organizations_p (jGetD d (strL "organizations") (.arr []))
    let education ← transform_education_p (jGetD d (strL "education") (.arr []))
    let awards ← transform_achievements_p
      (jGetD3 d (strL "achievements") (strL "awards") (strL "honors_and_awards") (.arr []))
    let certificates := jGetD d (strL "certificates") (.arr [])
    let publications := jGetD d (strL "publications") (.arr [])
    let skills ← transform_skills_comprehensive_p d
    let languages := jGetD d (strL "languages") (.arr [])
    let interests := jGetD d (strL "interests") (.arr [])
    let references := jGetD d (strL "references") (.arr [])
    let projects ← transform_projects_comprehensive_p d
    let meta := jGetD d (strL "meta") (.obj [])
    pure (JVal.obj
      [(strL "basics", basics), (strL "work", work), (strL "volunteer", volunteer),
       (strL "education", education), (strL "awards", awards),
       (strL "certificates", certificates), (strL "publications", publications),
       (strL "skills", skills), (strL "languages", languages),
       (strL "interests", interests), (strL "references", references),
       (strL "projects", projects), (strL "meta", meta)])
  | _ => some d

/-- Source: `PDFHandler._transform_parsed_data` (pdf.py lines 494-537):
on any exception inside the transformation, the input is returned
unchanged (`except ... return parsed_data`). -/
def transform_parsed_data (d : JVal) : JVal :=
  (transform_parsed_inner d).getD d

/-!
## Pydantic coercion `JSONResume(**complete_resume)` over JSON values

models.py declares the field types; pydantic v2 validates: `Optional`
fields accept `None`, `str` fields require strings, `List[...]` fields
require lists of valid items, required fields (`Basics.name`,
`Profile.url`) must be present and well-typed, and unknown keys are
ignored (the default `extra` policy).
-/

/-- Validates `Optional[str]`. -/
def vOptStr : JVal → Option (Option Str)
  | .null => some none
  | .str s => some (some s)
  | _ => none

/-- Validates a required `str`. -/
def vStrReq : JVal → Option Str
  | .str s => some s
  | _ => none

/-- Validates `Optional[List[str]]`. -/
def vOptStrList : JVal → Option (Option (List Str))
  | .null => some none
  | .arr xs => (xs.mapM jStrOf).map some
  | _ => none

/-- Validates `Optional[List[α]]` given an item validator. -/
def vOptList {α : Type} (f : JVal → Option α) : JVal → Option (Option (List α))
  | .null => some none
  | .arr xs => (xs.mapM f).map some
  | _ => none

/-- Validates models.py `Location` (all fields optional). -/
def mkLocation (v : JVal) : Option Resume.Location :=
  match v with
  | .obj _ => do
    let address ← vOptStr (jGetD v (strL "address") .null)
    let postalCode ← vOptStr (jGetD v (strL "postalCode") .null)
    let city ← vOptStr (jGetD v (strL "city") .null)
    let countryCode ← vOptStr (jGetD v (strL "countryCode") .null)
    let region ← vOptStr (jGetD v (strL "region") .null)
    pure { address := address, postalCode := postalCode, city := city,
           countryCode := countryCode, region := region }
  | _ => none

/-- Validates models.py `Profile` (`url` required). -/
def mkProfile (v : JVal) : Option Resume.Profile :=
  match v with
  | .obj _ => do
    let network ← vOptStr (jGetD v (strL "network") .null)
    let username ← vOptStr (jGetD v (strL "username") .null)
    let url ← vStrReq (jGetD v (strL "url") .null)
    pure { network := network, username := username, url := url }
  | _ => none

/-- Validates models.py `Basics` (`name` required). -/
def mkBasics (v : JVal) : Option Resume.Basics :=
  match v with
  | .obj _ => do
    let name ← vStrReq (jGetD v (strL "name") .null)
    let email ← vOptStr (jGetD v (strL "email") .null)
    let phone ← vOptStr (jGetD v (strL "phone") .null)
    let url ← vOptStr (jGetD v (strL "url") .null)
    let summary ← vOptStr (jGetD v (strL "summary") .null)
    let location ←
      match jGetD v (strL "location") .null with
      | .null => some none
      | lv => (mkLocation lv).map some
    let profiles ← vOptList mkProfile (jGetD v (strL "profiles") .null)
    pure { name := name, email := email, phone := phone, url := url,
           summary := summary, location := location, profiles := profiles }
  | _ => none

/-- Validates models.py `Work`. -/
def mkWork (v : JVal) : Option Resume.Work :=
  match v with
  | .obj _ => do
    let name ← vOptStr (jGetD v (strL "name") .null)
    let position ← vOptStr (jGetD v (strL "position") .null)
    let url ← vOptStr (jGetD v (strL "url") .null)
    let startDate ← vOptStr (jGetD v (strL "startDate") .null)
    let endDate ← vOptStr (jGetD v (strL "endDate") .null)
    let summary ← vOptStr (jGetD v (strL "summary") .null)
    let highlights ← vOptStrList (jGetD v (strL "highlights") .null)
    pure { name := name, position := position, url := url, startDate := startDate,
           endDate := endDate, summary := summary, highlights := highlights }
  | _ => none

/-- Validates models.py `Volunteer`. -/
def mkVolunteer (v : JVal) : Option Resume.Volunteer :=
  match v with
  | .obj _ => do
    let organization ← vOptStr (jGetD v (strL "organization") .null)
    let position ← vOptStr (jGetD v (strL "position") .null)
    let url ← vOptStr (jGetD v (strL "url") .null)
    let startDate ← vOptStr (jGetD v (strL "startDate") .null)
    let endDate ← vOptStr (jGetD v (strL "endDate") .null)
    let summary ← vOptStr (jGetD v (strL "summary") .null)
    let highlights ← vOptStrList (jGetD v (strL "highlights") .null)
    pure { organization := organization, position := position, url := url,
           startDate := startDate, endDate := endDate, summary := summary,
           highlights := highlights }
  | _ => none

/-- Validates models.py `Education`. -/
def mkEducation (v : JVal) : Option Resume.Education :=
  match v with
  | .obj _ => do
    let institution ← vOptStr (jGetD v (strL "institution") .null)
    let url ← vOptStr (jGetD v (strL "url") .null)
    let area ← vOptStr (jGetD v (strL "area") .null)
    let studyType ← vOptStr (jGetD v (strL "studyType") .null)
    let startDate ← vOptStr (jGetD v (strL "startDate") .null)
    let endDate ← vOptStr (jGetD v (strL "endDate") .null)
    let score ← vOptStr (jGetD v (strL "score") .null)
    let courses ← vOptStrList (jGetD v (strL "courses") .null)
    pure { institution := institution, url := url, area := area,
           studyType := studyType, startDate := startDate, endDate := endDate,
           score := score, courses := courses }
  | _ => none

/-- Validates models.py `Award`. -/
def mkAward (v : JVal) : Option Resume.Award :=
  match v with
  | .obj _ => do
    let title ← vOptStr (jGetD v (strL "title") .null)
    let date ← vOptStr (jGetD v (strL "date") .null)
    let awarder ← vOptStr (jGetD v (strL "awarder") .null)
    let summary ← vOptStr (jGetD v (strL "summary") .null)
    pure { title := title, date := date, awarder := awarder, summary := summary }
  | _ => none

/-- Validates models.py `Certificate`. -/
def mkCertificate (v : JVal) : Option Resume.Certificate :=
  match v with
  | .obj _ => do
    let name ← vOptStr (jGetD v (strL "name") .null)
    let date ← vOptStr (jGetD v (strL "date") .null)
    let issuer ← vOptStr (jGetD v (strL "issuer") .null)
    let url ← vOptStr (jGetD v (strL "url") .null)
    pure { name := name, date := date, issuer := issuer, url := url }
  | _ => none

/-- Validates models.py `Publication`. -/
def mkPublication (v : JVal) : Option Resume.Publication :=
  match v with
  | .obj _ => do
    let name ← vOptStr (jGetD v (strL "name") .null)
    let publisher ← vOptStr (jGetD v (strL "publisher") .null)
    let releaseDate ← vOptStr (jGetD v (strL "releaseDate") .null)
    let url ← vOptStr (jGetD v (strL "url") .null)
    let summary ← vOptStr (jGetD v (strL "summary") .null)
    pure { name := name, publisher := publisher, releaseDate := releaseDate,
           url := url, summary := summary }
  | _ => none

/-- Validates models.py `Skill`. -/
def mkSkill (v : JVal) : Option Resume.Skill :=
  match v with
  | .obj _ => do
    let name ← vOptStr (jGetD v (strL "name") .null)
    let level ← vOptStr (jGetD v (strL "level") .null)
    let keywords ← vOptStrList (jGetD v (strL "keywords") .null)
    pure { name := name, level := level, keywords := keywords }
  | _ => none

/-- Validates models.py `Language`. -/
def mkLanguage (v : JVal) : Option Resume.Language :=
  match v with
  | .obj _ => do
    let language ← vOptStr (jGetD v (strL "language") .null)
    let fluency ← vOptStr (jGetD v (strL "fluency") .null)
    pure { language := language, fluency := fluency }
  | _ => none

/-- Validates models.py `Interest`. -/
def mkInterest (v : JVal) : Option Resume.Interest :=
  match v with
  | .obj _ => do
    let name ← vOptStr (jGetD v (strL "name") .null)
    let keywords ← vOptStrList (jGetD v (strL "keywords") .null)
    pure { name := name, keywords := keywords }
  | _ => none

/-- Validates models.py `Reference`. -/
def mkReference (v : JVal) : Option Resume.Reference :=
  match v with
  | .obj _ => do
    let name ← vOptStr (jGetD v (strL "name") .null)
    let reference ← vOptStr (jGetD v (strL "reference") .null)
    pure { name := name, reference := reference }
  | _ => none

/-- Validates models.py `Project`. -/
def mkProjectR (v : JVal) : Option Resume.Project :=
  match v with
  | .obj _ => do
    let name ← vOptStr (jGetD v (strL "name") .null)
    let startDate ← vOptStr (jGetD v (strL "startDate") .null)
    let endDate ← vOptStr (jGetD v (strL "endDate") .null)
    let description ← vOptStr (jGetD v (strL "description") .null)
    let highlights ← vOptStrList (jGetD v (strL "highlights") .null)
    let url ← vOptStr (jGetD v (strL "url") .null)
    let technologies ← vOptStrList (jGetD v (strL "technologies") .null)
    let skills ← vOptStrList (jGetD v (strL "skills") .null)
    pure { name := name, startDate := startDate, endDate := endDate,
           description := description, highlights := highlights, url := url,
           technologies := technologies, skills := skills }
  | _ => none

/-- Validates `Optional[Basics]` (a nested model requires a dict). -/
def vOptBasics (v : JVal) : Option (Option Resume.Basics) :=
  match v with
  | .null => some none
  | bv => (mkBasics bv).map some

/-- Source behaviour of `JSONResume(**complete_resume)` (pdf.py line
482) on the merged mapping: validate each declared field, ignoring the
extra `meta` key; `none` models a pydantic `ValidationError`. -/
def mkJSONResume (kvs : List (Str × JVal)) : Option Resume.JSONResume := do
  let basics ← vOptBasics (assocGetD kvs (strL "basics") .null)
  let work ← vOptList mkWork (assocGetD kvs (strL "work") .null)
  let volunteer ← vOptList mkVolunteer (assocGetD kvs (strL "volunteer") .null)
  let education ← vOptList mkEducation (assocGetD kvs (strL "education") .null)
  let awards ← vOptList mkAward (assocGetD kvs (strL "awards") .null)
  let certificates ← vOptList mkCertificate (assocGetD kvs (strL "certificates") .null)
  let publications ← vOptList mkPublication (assocGetD kvs (strL "publications") .null)
  let skills ← vOptList mkSkill (assocGetD kvs (strL "skills") .null)
  let languages ← vOptList mkLanguage (assocGetD kvs (strL "languages") .null)
  let interests ← vOptList mkInterest (assocGetD kvs (strL "interests") .null)
  let references ← vOptList mkReference (assocGetD kvs (strL "references") .null)
  let projects ← vOptList mkProjectR (assocGetD kvs (strL "projects") .null)
  pure { basics := basics, work := work, volunteer := volunteer,
         education := education, awards := awards, certificates := certificates,
         publications := publications, skills := skills, languages := languages,
         interests := interests, references := references, projects := projects }

/-- The per-section extraction outcomes fed to
`_extract_all_sections_separately` (pdf.py lines 439-446): each is the
parsed JSON of one section call, or `none` when that call failed. -/
structure SectionOutcomes where
  basics : Option JVal
  work : Option JVal
  education : Option JVal
  skills : Option JVal
  projects : Option JVal
  awards : Option JVal

/-- The outcomes in the source's extraction order. -/
def section_results (outs : SectionOutcomes) : List (Option JVal) :=
  [outs.basics, outs.work, outs.education, outs.skills, outs.projects, outs.awards]

/-- The initial all-`None` resume mapping (pdf.py lines 449-463). -/
def initial_complete_resume : List (Str × JVal) :=
  [(strL "basics", .null), (strL "work", .null), (strL "volunteer", .null),
   (strL "education", .null), (strL "awards", .null), (strL "certificates", .null),
   (strL "publications", .null), (strL "skills", .null), (strL "languages", .null),
   (strL "interests", .null), (strL "references", .null), (strL "projects", .null),
   (strL "meta", .null)]

/-- One iteration of the extraction loop (pdf.py lines 466-475): a
failed or falsy section is skipped, a dict is merged via
`complete_resume.update(section_data)`; updating from a non-dict raises
(`none`). -/
def merge_section (kvs : List (Str × JVal)) (o : Option JVal) :
    Option (List (Str × JVal)) :=
  match o with
  | none => some kvs
  | some d =>
    if jFalsy d then some kvs
    else
      match d with
      | .obj dkvs => some (dkvs.foldl (fun acc kv => assocSet acc kv.1 kv.2) kvs)
      | _ => none

/-- Source: `PDFHandler._extract_all_sections_separately` (pdf.py lines
426-492): merge the section outcomes into the initial mapping, apply
`_transform_parsed_data`, then coerce with `JSONResume(**...)`; a
coercion failure (line 490-492) returns `None`.  A raised merge error
propagates to the callers (`extract_json_from_text` /
`extract_json_from_pdf`), both of which also return `None`; `none`
covers both. -/
def extract_all_sections (outs : SectionOutcomes) : Option Resume.JSONResume := do
  let merged ← (section_results outs).foldlM merge_section initial_complete_resume
  let transformed := transform_parsed_data (.obj merged)
  let tkvs ← jDict? transformed
  mkJSONResume tkvs

/-!
## Claim theorems for the assembler (C5)
-/

/-- A failed lookup means no stored key matches. -/
theorem assocFind_none_keys {l : List (Str × JVal)} {k : Str}
    (h : assocFind? l k = none) : ∀ p ∈ l, (p.1 == k) = false := by
  induction l with
  | nil => intro p hp; exact absurd hp (List.not_mem_nil p)
  | cons q rest ih =>
    intro p hp
    obtain ⟨k0, v0⟩ := q
    by_cases hk : (k0 == k) = true
    · rw [assocFind?, if_pos hk] at h
      exact Option.noConfusion h
    · rw [assocFind?, if_neg hk] at h
      rcases List.mem_cons.mp hp with rfl | hp'
      · simpa using hk
      · exact ih h p hp'

/-- Updating with keys that all differ from `k` preserves the lookup at
`k`. -/
theorem foldl_assocSet_preserve (k : Str) :
    ∀ (dkvs kvs : List (Str × JVal)),
      (∀ p ∈ dkvs, (p.1 == k) = false) →
      assocFind? (dkvs.foldl (fun acc kv => assocSet acc kv.1 kv.2) kvs) k
        = assocFind? kvs k := by
  intro dkvs
  induction dkvs with
  | nil => intro kvs _; rfl
  | cons kv rest ih =>
    intro kvs hkeys
    rw [List.foldl_cons, ih _ (fun p hp => hkeys p (List.mem_cons_of_mem kv hp)),
      assocFind_assocSet_other _ _ _ _ (hkeys kv (List.mem_cons_self kv rest))]

/-- Spec-side predicate: the fragment carries no entry for key `k`
(a missing fragment trivially so). -/
def frag_lacks_key (k : Str) (o : Option JVal) : Bool :=
  match o with
  | some v => !jHasKeyB v k
  | none => true

/-- One merge step preserves the lookup at a key the fragment does not
carry. -/
theorem merge_section_preserve (k : Str) (kvs kvs' : List (Str × JVal))
    (o : Option JVal)
    (hmerge : merge_section kvs o = some kvs')
    (hok : frag_lacks_key k o = true) :
    assocFind? kvs' k = assocFind? kvs k := by
  cases o with
  | none =>
    have h' : some kvs = some kvs' := hmerge
    rw [← (Option.some.injEq _ _).mp h']
  | some d =>
    have hok' : (!jHasKeyB d k) = true := hok
    simp only [merge_section] at hmerge
    by_cases hf : jFalsy d = true
    · rw [if_pos hf] at hmerge
      rw [← (Option.some.injEq _ _).mp hmerge]
    · rw [if_neg hf] at hmerge
      cases d with
      | obj dkvs =>
        have hm2 : some (dkvs.foldl (fun acc kv => assocSet acc kv.1 kv.2) kvs)
            = some kvs' := hmerge
        rw [← (Option.some.injEq _ _).mp hm2]
        simp only [jHasKeyB, Bool.not_eq_true'] at hok'
        have hnone : assocFind? dkvs k = none := by
          cases hfind : assocFind? dkvs k with
          | none => rfl
          | some w => simp [assocHasKey, hfind] at hok'
        exact foldl_assocSet_preserve k dkvs kvs (assocFind_none_keys hnone)
      | null => exact Option.noConfusion hmerge
      | bool x => exact Option.noConfusion hmerge
      | num x => exact Option.noConfusion hmerge
      | str x => exact Option.noConfusion hmerge
      | arr x => exact Option.noConfusion hmerge

/-- The whole merge loop preserves the lookup at a key no fragment
carries. -/
theorem foldlM_merge_preserve (k : Str) :
    ∀ (l : List (Option JVal)) (kvs merged : List (Str × JVal)),
      l.foldlM merge_section kvs = some merged →
      l.all (frag_lacks_key k) = true →
      assocFind? merged k = assocFind? kvs k := by
  intro l
  induction l with
  | nil =>
    intro kvs merged h _
    have h' : some kvs = some merged := h
    rw [← (Option.some.injEq _ _).mp h']
  | cons o rest ih =>
    intro kvs merged h hall
    rw [List.foldlM_cons] at h
    obtain ⟨kvs', h1, h2⟩ := Option.bind_eq_some.mp h
    rw [List.all_cons, Bool.and_eq_true] at hall
    rw [ih kvs' merged h2 hall.2, merge_section_preserve k kvs kvs' o h1 hall.1]

/-- With a `None` education value the inner transformation raises
(iterating `None`), so `_transform_parsed_data` falls back to the
untouched mapping. -/
theorem transform_inner_none (kvs : List (Str × JVal))
    (h : assocFind? kvs (strL "education") = some JVal.null) :
    transform_parsed_inner (.obj kvs) = none := by
  unfold transform_parsed_inner
  have hval : jGetD (JVal.obj kvs) (strL "education") (.arr []) = .null := by
    simp [jGetD, assocGetD, h]
  cases hw : transform_work_experience_p
      (jGetD3 (JVal.obj kvs) (strL "work_experience") (strL "work")
        (strL "experience") (.arr [])) with
  | none => simp [hw]
  | some w =>
    cases hv : transform_organizations_p
        (jGetD (JVal.obj kvs) (strL "organizations") (.arr [])) with
    | none => simp [hw, hv]
    | some vo =>
      have he : transform_education_p
          (jGetD (JVal.obj kvs) (strL "education") (.arr [])) = none := by
        rw [hval]; rfl
      simp [hw, hv, he]

/-- When the validated mapping binds `education` to JSON `null`, the
coerced record's education field is `None`. -/
theorem mkJSONResume_education_none (kvs : List (Str × JVal))
    (r : Resume.JSONResume)
    (h : mkJSONResume kvs = some r)
    (hedu : assocFind? kvs (strL "education") = some JVal.null) :
    r.education = none := by
  unfold mkJSONResume at h
  obtain ⟨basics, h1, h⟩ := Option.bind_eq_some.mp h
  obtain ⟨work, h2, h⟩ := Option.bind_eq_some.mp h
  obtain ⟨volunteer, h3, h⟩ := Option.bind_eq_some.mp h
  obtain ⟨education, h4, h⟩ := Option.bind_eq_some.mp h
  obtain ⟨awards, h5, h⟩ := Option.bind_eq_some.mp h
  obtain ⟨certificates, h6, h⟩ := Option.bind_eq_some.mp h
  obtain ⟨publications, h7, h⟩ := Option.bind_eq_some.mp h
  obtain ⟨skills, h8, h⟩ := Option.bind_eq_some.mp h
  obtain ⟨languages, h9, h⟩ := Option.bind_eq_some.mp h
  obtain ⟨interests, h10, h⟩ := Option.bind_eq_some.mp h
  obtain ⟨references, h11, h⟩ := Option.bind_eq_some.mp h
  obtain ⟨projects, h12, h⟩ := Option.bind_eq_some.mp h
  have hgd : assocGetD kvs (strL "education") JVal.null = JVal.null := by
    rw [assocGetD, hedu]
    rfl
  rw [hgd] at h4
  have hnil : some (none : Option (List Resume.Education)) = some education := h4
  have heq : (none : Option (List Resume.Education)) = education :=
    (Option.some.injEq _ _).mp hnil
  have hr : Resume.JSONResume.mk basics work volunteer education awards
      certificates publications skills languages interests references
      projects = r :=
    (Option.some.injEq _ _).mp h
  rw [← hr]
  exact heq.symm

/-- Outcomes where only the identity section succeeded, but its
fragment lacks the required `name`, so the typed coercion fails. -/
def c5_bad_outcomes : SectionOutcomes :=
  { basics := some (.obj [(strL "basics",
      .obj [(strL "email", .str (strL "a@b.c"))])]),
    work := none, education := none, skills := none,
    projects := none, awards := none }

/-- C5 counterexample: when coercing the merged mapping into the typed
record fails (here: the identity fragment has no `name`), the assembler
returns no record at all (pdf.py lines 490-492 return `None`); the
identity field is not nulled and assembly does abort. -/
theorem extract_all_sections_aborts_on_coercion_failure :
    extract_all_sections c5_bad_outcomes = none := by rfl

/-- C5 (amended): the assembler does return a record when coercion
succeeds even though sections failed, and a key that no successful
fragment supplies stays absent (`None`) in the result: partial records
are valid output. -/
theorem extract_all_sections_amended (outs : SectionOutcomes)
    (r : Resume.JSONResume)
    (hr : extract_all_sections outs = some r)
    (hfrag : (section_results outs).all (frag_lacks_key (strL "education"))
      = true) :
    r.education = none := by
  unfold extract_all_sections at hr
  obtain ⟨merged, hm, hr⟩ := Option.bind_eq_some.mp hr
  obtain ⟨tkvs, ht, hmk⟩ := Option.bind_eq_some.mp hr
  have hedu : assocFind? merged (strL "education") = some JVal.null := by
    rw [foldlM_merge_preserve (strL "education") (section_results outs)
      initial_complete_resume merged hm hfrag]
    rfl
  have htrans : transform_parsed_data (.obj merged) = .obj merged := by
    rw [transform_parsed_data, transform_inner_none merged hedu]
    rfl
  rw [htrans] at ht
  have htk : some merged = some tkvs := ht
  have hmt : merged = tkvs := (Option.some.injEq _ _).mp htk
  subst hmt
  exact mkJSONResume_education_none merged r hmk hedu

/-- Outcomes where only the identity section succeeded and carries a
valid `name`, so coercion goes through on an otherwise partial record. -/
def c5_ok_outcomes : SectionOutcomes :=
  { basics := some (.obj [(strL "basics",
      .obj [(strL "name", .str (strL "Ada Lovelace"))])]),
    work := none, education := none, skills := none,
    projects := none, awards := none }

/-- The record the assembler produces on those outcomes. -/
def c5_result : Resume.JSONResume :=
  (extract_all_sections c5_ok_outcomes).getD {}

/-- Witness: the amended theorem applies to a concrete run in which five
of six sections failed; the assembler still returns a record and its
education field is absent. -/
theorem extract_all_sections_amended_witness :
    extract_all_sections c5_ok_outcomes = some c5_result ∧
    (section_results c5_ok_outcomes).all (frag_lacks_key (strL "education"))
      = true ∧
    c5_result.education = none :=
  ⟨rfl, rfl, extract_all_sections_amended c5_ok_outcomes c5_result rfl rfl⟩
